import Mathlib

/-!
Verification of the IronCoder gesture-decision engine.

Shallow embedding of the Python sources:
  * `src/src/clutch_detector.py`   (ClutchDetector)
  * `src/src/gesture_recognizer.py` (CommandGestureRecognizer, confidence scoring)
  * `src/src/hybrid_gesture_detector.py` (HybridGestureDetector)

Conventions of the embedding:
  * Python floats are modelled as real numbers.
  * A hand skeleton (`hand_data`) is a record holding the landmark array
    (modelled as a total function `Nat → Point`; the caller contract is
    21 keypoints, and only indices 0..20 are ever read) together with the
    `confidence` entry used as the hand-tracking-quality factor.
  * Gesture name strings are modelled by the closed enumeration `Gesture`
    (the source only ever uses these eleven strings).  Trigger-source
    strings ('local' / 'gemini') are kept as `String`, as in the source.
  * `collections.deque(maxlen=n)` is modelled by `dequeAppend`: append at
    the right, drop from the left when the length exceeds `n`.
  * Wall-clock time (`time.time() * 1000`) is passed explicitly as the
    `current_time` argument of the functions that read it.
  * The Gemini verifier (`gemini_detector`) is modelled by a Boolean flag
    `gemini_configured` (the detector object being not `None`) plus an
    oracle `verify : Gesture → Bool` for `verify_gesture_quick`; an
    exception inside the verifier yields `false`, which the oracle absorbs.
  * `CommandGestureRecognizer.recognize_with_confidence` is stateless, so
    `HybridGestureDetector` is embedded parametrically in the classifier
    function `recognize`; instantiating it with the embedded
    `recognize_with_confidence` gives the shipped detector.
-/

namespace IronCoder

noncomputable section

open Real

/-- One normalized landmark `{x, y, z}` of a hand skeleton. -/
structure Point where
  x : ℝ
  y : ℝ
  z : ℝ

/-- Hand data produced by the hand tracker: the 21-keypoint landmark list
(`landmarks[i]`, modelled as a total function) and the per-hand detection
`confidence`. -/
structure HandData where
  landmarks : Nat → Point
  confidence : ℝ

/-- The eleven gesture-name strings used by the source
(`CommandGestureRecognizer.GESTURE_*`). -/
inductive Gesture where
  | none
  | open_palm
  | peace_sign
  | thumbs_up
  | thumbs_down
  | pointing
  | ok_sign
  | rock_sign
  | shaka
  | three_fingers
  | four_fingers
deriving DecidableEq, Repr

/-- `collections.deque(maxlen=maxlen)`: append on the right, evicting from
the left whenever the length would exceed `maxlen`. -/
def dequeAppend {α : Type} (maxlen : Nat) (l : List α) (x : α) : List α :=
  let l2 := l ++ [x]
  if maxlen < l2.length then l2.drop (l2.length - maxlen) else l2

/-! ## ClutchDetector (`src/src/clutch_detector.py`) -/

/-- `ClutchDetector.is_fist_closed`: all four fingertips below their PIP
joints and the thumb tip below the thumb IP joint (screen-space "below"
means larger `y`).  `None` hand data yields `false`. -/
def is_fist_closed (hand_data : Option HandData) : Bool :=
  match hand_data with
  | Option.none => false
  | Option.some hd =>
    let lm := hd.landmarks
    decide ((lm 8).y > (lm 6).y) &&
    decide ((lm 12).y > (lm 10).y) &&
    decide ((lm 16).y > (lm 14).y) &&
    decide ((lm 20).y > (lm 18).y) &&
    decide ((lm 4).y > (lm 3).y)

/-- Mutable state of `ClutchDetector`. -/
structure ClutchState where
  require_stable_frames : Nat
  detection_history : List Bool
  is_engaged : Bool

/-- `ClutchDetector.__init__(require_stable_frames)`. -/
def initClutch (n : Nat) : ClutchState :=
  { require_stable_frames := n, detection_history := [], is_engaged := false }

/-- `ClutchDetector.update`: push the current fist test into the bounded
history; once the window is full, recompute `is_engaged = all(history)`.
The Python method returns `self.is_engaged`, i.e. the `is_engaged` field of
the state this function returns. -/
def clutchUpdate (st : ClutchState) (hand_data : Option HandData) : ClutchState :=
  let fist_closed := is_fist_closed hand_data
  let hist := dequeAppend st.require_stable_frames st.detection_history fist_closed
  let engaged := if hist.length = st.require_stable_frames then hist.all id else st.is_engaged
  { st with detection_history := hist, is_engaged := engaged }

/-- Feed a sequence of frames to a fresh `ClutchDetector(n)`. -/
def runClutch (n : Nat) (hs : List (Option HandData)) : ClutchState :=
  hs.foldl clutchUpdate (initClutch n)

/-! ## CommandGestureRecognizer geometry (`src/src/gesture_recognizer.py`) -/

/-- `is_finger_extended(landmarks, tip_id, pip_id, mcp_id=None)`:
`tip.y < pip.y`, and additionally `tip.y < mcp.y` when an MCP id is given. -/
def is_finger_extended (lm : Nat → Point) (tip_id pip_id : Nat) (mcp_id : Option Nat) : Prop :=
  match mcp_id with
  | Option.none => (lm tip_id).y < (lm pip_id).y
  | Option.some m => (lm tip_id).y < (lm pip_id).y ∧ (lm tip_id).y < (lm m).y

instance (lm : Nat → Point) (t p : Nat) (m : Option Nat) :
    Decidable (is_finger_extended lm t p m) := by
  unfold is_finger_extended
  match m with
  | Option.none => exact inferInstance
  | Option.some m => exact inferInstance

/-- `is_thumb_extended_up`: `tip.y < ip.y < mcp.y`. -/
def is_thumb_extended_up (lm : Nat → Point) : Prop :=
  (lm 4).y < (lm 3).y ∧ (lm 3).y < (lm 2).y

instance (lm : Nat → Point) : Decidable (is_thumb_extended_up lm) := by
  unfold is_thumb_extended_up; exact inferInstance

/-- `is_thumb_extended_down`: pointing down (`tip.y > ip.y > mcp.y`), tip
below the wrist, and vertical extension above 0.05. -/
def is_thumb_extended_down (lm : Nat → Point) : Prop :=
  ((lm 4).y > (lm 3).y ∧ (lm 3).y > (lm 2).y) ∧
  (lm 4).y > (lm 0).y ∧
  (lm 4).y - (lm 2).y > 0.05

instance (lm : Nat → Point) : Decidable (is_thumb_extended_down lm) := by
  unfold is_thumb_extended_down; exact inferInstance

/-- `_calculate_fingertip_spread`: diagonal of the bounding box of the four
non-thumb fingertips (landmarks 8, 12, 16, 20). -/
def fingertipSpread (lm : Nat → Point) : ℝ :=
  let xs := fun a b c d : ℝ => max (max a b) (max c d)
  let maxX := xs (lm 8).x (lm 12).x (lm 16).x (lm 20).x
  let minX := min (min (lm 8).x (lm 12).x) (min (lm 16).x (lm 20).x)
  let maxY := xs (lm 8).y (lm 12).y (lm 16).y (lm 20).y
  let minY := min (min (lm 8).y (lm 12).y) (min (lm 16).y (lm 20).y)
  Real.sqrt ((maxX - minX) ^ 2 + (maxY - minY) ^ 2)

/-- `_calculate_fingertip_height_variance`: `max(ys) - min(ys)` over the
four non-thumb fingertips. -/
def fingertipHeightVariance (lm : Nat → Point) : ℝ :=
  let maxY := max (max (lm 8).y (lm 12).y) (max (lm 16).y (lm 20).y)
  let minY := min (min (lm 8).y (lm 12).y) (min (lm 16).y (lm 20).y)
  maxY - minY

/-- Direction argument of `_calculate_thumb_verticality`. -/
inductive ThumbDirection where
  | up
  | down
deriving DecidableEq

/-- `_calculate_thumb_verticality(landmarks, direction)`:
0 when `dy = 0` or the thumb points the wrong way, otherwise
`1 - min(dx/dy, 1)`. -/
def thumbVerticality (lm : Nat → Point) (direction : ThumbDirection) : ℝ :=
  let dx := |(lm 4).x - (lm 2).x|
  let dy := |(lm 4).y - (lm 2).y|
  if dy = 0 then 0.0
  else if direction = ThumbDirection.up ∧ (lm 4).y ≥ (lm 2).y then 0.0
  else if direction = ThumbDirection.down ∧ (lm 4).y ≤ (lm 2).y then 0.0
  else 1.0 - min (dx / dy) 1.0

/-- `math.degrees(math.acos x)` applied to the clamped cosine. -/
def angleDeg (cosValue : ℝ) : ℝ :=
  Real.arccos cosValue * (180 / Real.pi)

/-! ### Per-template confidence scoring

Each `*_confidence` function mirrors the corresponding Python method:
a hard base gate selecting the base score (else an early `return 0.0`),
followed by graded additive bonuses, finally clamped by `min(·, 1.0)`.
The `*_gate` definitions name exactly the base condition of each method
(the condition under which the method does not take its `return 0.0`
branch). -/

/-- Base gate of `open_palm_confidence`: at least 4 of the 5 finger
extension tests hold (all 5 gives base 0.50, exactly 4 gives base 0.30,
fewer returns 0). -/
def open_palm_gate (hd : HandData) : Prop :=
  let lm := hd.landmarks
  let index_ext := is_finger_extended lm 8 6 (Option.some 5)
  let middle_ext := is_finger_extended lm 12 10 (Option.some 9)
  let ring_ext := is_finger_extended lm 16 14 (Option.some 13)
  let pinky_ext := is_finger_extended lm 20 18 (Option.some 17)
  let thumb_ext := |(lm 4).x - (lm 0).x| > |(lm 2).x - (lm 0).x|
  4 ≤ (if index_ext then 1 else 0) + (if middle_ext then 1 else 0) +
      (if ring_ext then 1 else 0) + (if pinky_ext then 1 else 0) +
      (if thumb_ext then (1 : Nat) else 0)

instance (hd : HandData) : Decidable (open_palm_gate hd) := by
  unfold open_palm_gate; exact inferInstance

/-- `open_palm_confidence`. -/
def open_palm_confidence (hand_data : Option HandData) : ℝ :=
  match hand_data with
  | Option.none => 0.0
  | Option.some hd =>
    let lm := hd.landmarks
    let index_ext := is_finger_extended lm 8 6 (Option.some 5)
    let middle_ext := is_finger_extended lm 12 10 (Option.some 9)
    let ring_ext := is_finger_extended lm 16 14 (Option.some 13)
    let pinky_ext := is_finger_extended lm 20 18 (Option.some 17)
    let thumb_ext := |(lm 4).x - (lm 0).x| > |(lm 2).x - (lm 0).x|
    let extendedCount :=
      (if index_ext then 1 else 0) + (if middle_ext then 1 else 0) +
      (if ring_ext then 1 else 0) + (if pinky_ext then 1 else 0) +
      (if thumb_ext then (1 : Nat) else 0)
    let pipeline := fun (base : ℝ) =>
      let spread := fingertipSpread lm
      let c1 := if spread > 0.20 then base + 0.15
                else if spread > 0.12 then base + 0.08 else base
      let height_var := fingertipHeightVariance lm
      let c2 := if height_var < 0.06 then c1 + 0.15
                else if height_var < 0.12 then c1 + 0.08 else c1
      let thumb_spread := |(lm 4).x - (lm 0).x| - |(lm 2).x - (lm 0).x|
      let c3 := if thumb_spread > 0.08 then c2 + 0.10
                else if thumb_spread > 0.04 then c2 + 0.05 else c2
      min c3 1.0
    if index_ext ∧ middle_ext ∧ ring_ext ∧ pinky_ext ∧ thumb_ext then pipeline 0.50
    else if 4 ≤ extendedCount then pipeline 0.30
    else 0.0

/-- Base gate of `peace_sign_confidence`: index and middle extended, ring
and pinky curled, V-separation above 0.03. -/
def peace_sign_gate (hd : HandData) : Prop :=
  let lm := hd.landmarks
  is_finger_extended lm 8 6 (Option.some 5) ∧
  is_finger_extended lm 12 10 (Option.some 9) ∧
  (lm 16).y > (lm 14).y ∧
  (lm 20).y > (lm 18).y ∧
  |(lm 8).x - (lm 12).x| > 0.03

instance (hd : HandData) : Decidable (peace_sign_gate hd) := by
  unfold peace_sign_gate; exact inferInstance

/-- `peace_sign_confidence`. -/
def peace_sign_confidence (hand_data : Option HandData) : ℝ :=
  match hand_data with
  | Option.none => 0.0
  | Option.some hd =>
    let lm := hd.landmarks
    if peace_sign_gate hd then
      let c0 : ℝ := 0.50
      let thumb_tucked := (lm 4).y ≥ (lm 3).y
      let c1 := if thumb_tucked then c0 + 0.15 else c0
      let v1x := (lm 8).x - (lm 5).x
      let v1y := (lm 8).y - (lm 5).y
      let v2x := (lm 12).x - (lm 5).x
      let v2y := (lm 12).y - (lm 5).y
      let mag1 := Real.sqrt (v1x ^ 2 + v1y ^ 2)
      let mag2 := Real.sqrt (v2x ^ 2 + v2y ^ 2)
      let c2 :=
        if mag1 > 0 ∧ mag2 > 0 then
          let dot := v1x * v2x + v1y * v2y
          let cos_angle := max (-1) (min 1 (dot / (mag1 * mag2)))
          let a := angleDeg cos_angle
          if 15 ≤ a ∧ a ≤ 60 then c1 + 0.15
          else if 10 ≤ a ∧ a ≤ 75 then c1 + 0.08 else c1
        else c1
      let ring_curl := (lm 16).y - (lm 14).y
      let pinky_curl := (lm 20).y - (lm 18).y
      let c3 := if ring_curl > 0.03 ∧ pinky_curl > 0.03 then c2 + 0.10 else c2
      min c3 1.0
    else 0.0

/-- Base gate of `thumbs_up_confidence`: thumb extended up and all four
fingers not extended. -/
def thumbs_up_gate (hd : HandData) : Prop :=
  let lm := hd.landmarks
  is_thumb_extended_up lm ∧
  ¬(is_finger_extended lm 8 6 Option.none ∨ is_finger_extended lm 12 10 Option.none ∨
    is_finger_extended lm 16 14 Option.none ∨ is_finger_extended lm 20 18 Option.none)

instance (hd : HandData) : Decidable (thumbs_up_gate hd) := by
  unfold thumbs_up_gate; exact inferInstance

/-- `thumbs_up_confidence`. -/
def thumbs_up_confidence (hand_data : Option HandData) : ℝ :=
  match hand_data with
  | Option.none => 0.0
  | Option.some hd =>
    let lm := hd.landmarks
    if thumbs_up_gate hd then
      let c0 : ℝ := 0.50
      let verticality := thumbVerticality lm ThumbDirection.up
      let c1 := if verticality > 0.7 then c0 + 0.20
                else if verticality > 0.5 then c0 + 0.10 else c0
      let spread := fingertipSpread lm
      let c2 := if spread < 0.08 then c1 + 0.15
                else if spread < 0.12 then c1 + 0.08 else c1
      min c2 1.0
    else 0.0

/-- Base gate of `thumbs_down_confidence`: thumb extended down and all four
fingers not extended. -/
def thumbs_down_gate (hd : HandData) : Prop :=
  let lm := hd.landmarks
  is_thumb_extended_down lm ∧
  ¬(is_finger_extended lm 8 6 Option.none ∨ is_finger_extended lm 12 10 Option.none ∨
    is_finger_extended lm 16 14 Option.none ∨ is_finger_extended lm 20 18 Option.none)

instance (hd : HandData) : Decidable (thumbs_down_gate hd) := by
  unfold thumbs_down_gate; exact inferInstance

/-- `thumbs_down_confidence`. -/
def thumbs_down_confidence (hand_data : Option HandData) : ℝ :=
  match hand_data with
  | Option.none => 0.0
  | Option.some hd =>
    let lm := hd.landmarks
    if thumbs_down_gate hd then
      let c0 : ℝ := 0.50
      let verticality := thumbVerticality lm ThumbDirection.down
      let c1 := if verticality > 0.7 then c0 + 0.20
                else if verticality > 0.5 then c0 + 0.10 else c0
      let spread := fingertipSpread lm
      let c2 := if spread < 0.08 then c1 + 0.15
                else if spread < 0.12 then c1 + 0.08 else c1
      let thumb_below_wrist := (lm 4).y - (lm 0).y
      let c3 := if thumb_below_wrist > 0.10 then c2 + 0.10
                else if thumb_below_wrist > 0.05 then c2 + 0.05 else c2
      min c3 1.0
    else 0.0

/-- Base gate of `pointing_confidence`: index extended, middle/ring/pinky
curled, and the index tip at least 0.05 higher than the middle tip. -/
def pointing_gate (hd : HandData) : Prop :=
  let lm := hd.landmarks
  is_finger_extended lm 8 6 (Option.some 5) ∧
  (lm 12).y > (lm 10).y ∧
  (lm 16).y > (lm 14).y ∧
  (lm 20).y > (lm 18).y ∧
  (lm 12).y - (lm 8).y > 0.05

instance (hd : HandData) : Decidable (pointing_gate hd) := by
  unfold pointing_gate; exact inferInstance

/-- `pointing_confidence`. -/
def pointing_confidence (hand_data : Option HandData) : ℝ :=
  match hand_data with
  | Option.none => 0.0
  | Option.some hd =>
    let lm := hd.landmarks
    if pointing_gate hd then
      let c0 : ℝ := 0.50
      let thumb_not_up := (lm 4).y ≥ (lm 3).y ∨ (lm 4).y ≥ (lm 2).y
      let c1 := if thumb_not_up then c0 + 0.15 else c0
      let v1x := (lm 8).x - (lm 6).x
      let v1y := (lm 8).y - (lm 6).y
      let v2x := (lm 5).x - (lm 6).x
      let v2y := (lm 5).y - (lm 6).y
      let mag1 := Real.sqrt (v1x ^ 2 + v1y ^ 2)
      let mag2 := Real.sqrt (v2x ^ 2 + v2y ^ 2)
      let c2 :=
        if mag1 > 0 ∧ mag2 > 0 then
          let dot := v1x * v2x + v1y * v2y
          let cos_angle := max (-1) (min 1 (dot / (mag1 * mag2)))
          let a := angleDeg cos_angle
          if a > 160 then c1 + 0.15
          else if a > 140 then c1 + 0.08 else c1
        else c1
      let middle_curl := (lm 12).y - (lm 10).y
      let ring_curl := (lm 16).y - (lm 14).y
      let pinky_curl := (lm 20).y - (lm 18).y
      let c3 := if middle_curl > 0.03 ∧ ring_curl > 0.03 ∧ pinky_curl > 0.03
                then c2 + 0.10 else c2
      min c3 1.0
    else 0.0

/-- Distance between the thumb tip and the index tip used by the OK sign. -/
def okTipDistance (lm : Nat → Point) : ℝ :=
  Real.sqrt (((lm 4).x - (lm 8).x) ^ 2 + ((lm 4).y - (lm 8).y) ^ 2)

/-- Base gate of `ok_sign_confidence`: thumb/index tips within 0.06 and
middle/ring/pinky extended. -/
def ok_sign_gate (hd : HandData) : Prop :=
  let lm := hd.landmarks
  okTipDistance lm < 0.06 ∧
  is_finger_extended lm 12 10 Option.none ∧
  is_finger_extended lm 16 14 Option.none ∧
  is_finger_extended lm 20 18 Option.none

instance (hd : HandData) : Decidable (ok_sign_gate hd) := by
  unfold ok_sign_gate; exact inferInstance

/-- `ok_sign_confidence`. -/
def ok_sign_confidence (hand_data : Option HandData) : ℝ :=
  match hand_data with
  | Option.none => 0.0
  | Option.some hd =>
    let lm := hd.landmarks
    if ok_sign_gate hd then
      let c0 : ℝ := 0.50
      let tip_distance := okTipDistance lm
      let c1 := if tip_distance < 0.03 then c0 + 0.20
                else if tip_distance < 0.045 then c0 + 0.10 else c0
      let e1 := (lm 9).y - (lm 12).y
      let e2 := (lm 13).y - (lm 16).y
      let e3 := (lm 17).y - (lm 20).y
      let c2 := if e1 > 0.08 ∧ e2 > 0.08 ∧ e3 > 0.08 then c1 + 0.15
                else if e1 > 0.05 ∧ e2 > 0.05 ∧ e3 > 0.05 then c1 + 0.08 else c1
      min c2 1.0
    else 0.0

/-- Base gate of `rock_sign_confidence`: index and pinky extended, middle
and ring curled. -/
def rock_sign_gate (hd : HandData) : Prop :=
  let lm := hd.landmarks
  is_finger_extended lm 8 6 (Option.some 5) ∧
  is_finger_extended lm 20 18 (Option.some 17) ∧
  (lm 12).y > (lm 10).y ∧
  (lm 16).y > (lm 14).y

instance (hd : HandData) : Decidable (rock_sign_gate hd) := by
  unfold rock_sign_gate; exact inferInstance

/-- `rock_sign_confidence`. -/
def rock_sign_confidence (hand_data : Option HandData) : ℝ :=
  match hand_data with
  | Option.none => 0.0
  | Option.some hd =>
    let lm := hd.landmarks
    if rock_sign_gate hd then
      let c0 : ℝ := 0.50
      let spread := |(lm 8).x - (lm 20).x|
      let c1 := if spread > 0.12 then c0 + 0.15
                else if spread > 0.08 then c0 + 0.08 else c0
      let middle_curl := (lm 12).y - (lm 10).y
      let ring_curl := (lm 16).y - (lm 14).y
      let c2 := if middle_curl > 0.04 ∧ ring_curl > 0.04 then c1 + 0.15
                else if middle_curl > 0.02 ∧ ring_curl > 0.02 then c1 + 0.08 else c1
      let thumb_tucked := |(lm 4).x - (lm 0).x| < |(lm 2).x - (lm 0).x| + 0.04
      let c3 := if thumb_tucked then c2 + 0.10 else c2
      min c3 1.0
    else 0.0

/-- Base gate of `shaka_confidence`: thumb horizontally extended and not
vertical, pinky extended, index/middle/ring curled. -/
def shaka_gate (hd : HandData) : Prop :=
  let lm := hd.landmarks
  |(lm 4).x - (lm 0).x| > |(lm 2).x - (lm 0).x| + 0.04 ∧
  |(lm 4).y - (lm 2).y| < 0.12 ∧
  is_finger_extended lm 20 18 (Option.some 17) ∧
  (lm 8).y > (lm 6).y ∧
  (lm 12).y > (lm 10).y ∧
  (lm 16).y > (lm 14).y

instance (hd : HandData) : Decidable (shaka_gate hd) := by
  unfold shaka_gate; exact inferInstance

/-- `shaka_confidence`. -/
def shaka_confidence (hand_data : Option HandData) : ℝ :=
  match hand_data with
  | Option.none => 0.0
  | Option.some hd =>
    let lm := hd.landmarks
    if shaka_gate hd then
      let c0 : ℝ := 0.50
      let tvr := |(lm 4).y - (lm 2).y| / max (|(lm 4).x - (lm 2).x|) 0.01
      let c1 := if tvr < 0.5 then c0 + 0.15
                else if tvr < 0.8 then c0 + 0.08 else c0
      let index_curl := (lm 8).y - (lm 6).y
      let middle_curl := (lm 12).y - (lm 10).y
      let ring_curl := (lm 16).y - (lm 14).y
      let c2 := if index_curl > 0.03 ∧ middle_curl > 0.03 ∧ ring_curl > 0.03
                then c1 + 0.15
                else if index_curl > 0.02 ∧ middle_curl > 0.02 ∧ ring_curl > 0.02
                then c1 + 0.08 else c1
      let pinky_extension := (lm 17).y - (lm 20).y
      let c3 := if pinky_extension > 0.08 then c2 + 0.10 else c2
      min c3 1.0
    else 0.0

/-- Base gate of `three_fingers_confidence`: index/middle/ring extended,
pinky curled, thumb neutral. -/
def three_fingers_gate (hd : HandData) : Prop :=
  let lm := hd.landmarks
  is_finger_extended lm 8 6 (Option.some 5) ∧
  is_finger_extended lm 12 10 (Option.some 9) ∧
  is_finger_extended lm 16 14 (Option.some 13) ∧
  (lm 20).y > (lm 18).y ∧
  (lm 4).y ≥ (lm 3).y - 0.02

instance (hd : HandData) : Decidable (three_fingers_gate hd) := by
  unfold three_fingers_gate; exact inferInstance

/-- `three_fingers_confidence`. -/
def three_fingers_confidence (hand_data : Option HandData) : ℝ :=
  match hand_data with
  | Option.none => 0.0
  | Option.some hd =>
    let lm := hd.landmarks
    if three_fingers_gate hd then
      let c0 : ℝ := 0.50
      let e1 := (lm 5).y - (lm 8).y
      let e2 := (lm 9).y - (lm 12).y
      let e3 := (lm 13).y - (lm 16).y
      let c1 := if e1 > 0.10 ∧ e2 > 0.10 ∧ e3 > 0.10 then c0 + 0.20
                else if e1 > 0.06 ∧ e2 > 0.06 ∧ e3 > 0.06 then c0 + 0.10 else c0
      let pinky_curl := (lm 20).y - (lm 18).y
      let c2 := if pinky_curl > 0.04 then c1 + 0.15
                else if pinky_curl > 0.02 then c1 + 0.08 else c1
      min c2 1.0
    else 0.0

/-- Base gate of `four_fingers_confidence`: all four fingers extended and
the thumb tucked. -/
def four_fingers_gate (hd : HandData) : Prop :=
  let lm := hd.landmarks
  is_finger_extended lm 8 6 (Option.some 5) ∧
  is_finger_extended lm 12 10 (Option.some 9) ∧
  is_finger_extended lm 16 14 (Option.some 13) ∧
  is_finger_extended lm 20 18 (Option.some 17) ∧
  |(lm 4).x - (lm 0).x| ≤ |(lm 2).x - (lm 0).x| + 0.03

instance (hd : HandData) : Decidable (four_fingers_gate hd) := by
  unfold four_fingers_gate; exact inferInstance

/-- `four_fingers_confidence`. -/
def four_fingers_confidence (hand_data : Option HandData) : ℝ :=
  match hand_data with
  | Option.none => 0.0
  | Option.some hd =>
    let lm := hd.landmarks
    if four_fingers_gate hd then
      let c0 : ℝ := 0.50
      let e1 := (lm 5).y - (lm 8).y
      let e2 := (lm 9).y - (lm 12).y
      let e3 := (lm 13).y - (lm 16).y
      let e4 := (lm 17).y - (lm 20).y
      let c1 := if e1 > 0.10 ∧ e2 > 0.10 ∧ e3 > 0.10 ∧ e4 > 0.10 then c0 + 0.20
                else if e1 > 0.06 ∧ e2 > 0.06 ∧ e3 > 0.06 ∧ e4 > 0.06 then c0 + 0.10
                else c0
      let thumb_tuck_margin := |(lm 2).x - (lm 0).x| - |(lm 4).x - (lm 0).x|
      let c2 := if thumb_tuck_margin > 0.02 then c1 + 0.15
                else if thumb_tuck_margin > 0 then c1 + 0.08 else c1
      min c2 1.0
    else 0.0

/-- The per-template score table built by `recognize_with_confidence`,
in the dictionary's insertion order. -/
def scoresList (hd : HandData) : List (Gesture × ℝ) :=
  [(Gesture.open_palm, open_palm_confidence (Option.some hd)),
   (Gesture.peace_sign, peace_sign_confidence (Option.some hd)),
   (Gesture.thumbs_up, thumbs_up_confidence (Option.some hd)),
   (Gesture.thumbs_down, thumbs_down_confidence (Option.some hd)),
   (Gesture.pointing, pointing_confidence (Option.some hd)),
   (Gesture.ok_sign, ok_sign_confidence (Option.some hd)),
   (Gesture.rock_sign, rock_sign_confidence (Option.some hd)),
   (Gesture.shaka, shaka_confidence (Option.some hd)),
   (Gesture.three_fingers, three_fingers_confidence (Option.some hd)),
   (Gesture.four_fingers, four_fingers_confidence (Option.some hd))]

/-- `max(scores, key=scores.get)` over a nonempty association list:
keep the earliest entry among those with the maximal score (Python's
`max` only replaces the running best on a strictly greater key). -/
def bestOf (l : List (Gesture × ℝ)) : Gesture × ℝ :=
  match l with
  | [] => (Gesture.none, 0.0)
  | p :: rest => rest.foldl (fun best q => if q.2 > best.2 then q else best) p

/-- `CommandGestureRecognizer.recognize_with_confidence`. -/
def recognize_with_confidence (hand_data : Option HandData) : Gesture × ℝ :=
  match hand_data with
  | Option.none => (Gesture.none, 0.0)
  | Option.some hd =>
    let best := bestOf (scoresList hd)
    if best.2 < 0.40 then (Gesture.none, 0.0) else best

/-! ## HybridGestureDetector (`src/src/hybrid_gesture_detector.py`) -/

/-- Class-level default thresholds. -/
def DEFAULT_HIGH_CONFIDENCE : ℝ := 0.80

/-- Gemini verification band floor. -/
def DEFAULT_MEDIUM_CONFIDENCE : ℝ := 0.60

/-- Recognition floor. -/
def DEFAULT_LOW_CONFIDENCE : ℝ := 0.40

/-- Per-gesture configuration entry. -/
structure GestureParams where
  stability_frames : Nat
  skip_gemini_above : ℝ

/-- `DEFAULT_GESTURE_CONFIG`: only the five listed gestures have entries
(and, by the merging rule in `__init__`, overrides can never add keys, so
these are the only gestures that ever get a stability history). -/
def DEFAULT_GESTURE_CONFIG (g : Gesture) : Option GestureParams :=
  match g with
  | Gesture.open_palm => Option.some { stability_frames := 2, skip_gemini_above := 0.75 }
  | Gesture.peace_sign => Option.some { stability_frames := 3, skip_gemini_above := 0.80 }
  | Gesture.thumbs_up => Option.some { stability_frames := 3, skip_gemini_above := 0.80 }
  | Gesture.thumbs_down => Option.some { stability_frames := 3, skip_gemini_above := 0.80 }
  | Gesture.pointing => Option.some { stability_frames := 3, skip_gemini_above := 0.80 }
  | _ => Option.none

/-- `config.get('stability_frames', 3)`. -/
def stabilityFrames (g : Gesture) : Nat :=
  match DEFAULT_GESTURE_CONFIG g with
  | Option.some c => c.stability_frames
  | Option.none => 3

/-- `config.get('skip_gemini_above', DEFAULT_HIGH_CONFIDENCE)`. -/
def skipThreshold (g : Gesture) : ℝ :=
  match DEFAULT_GESTURE_CONFIG g with
  | Option.some c => c.skip_gemini_above
  | Option.none => DEFAULT_HIGH_CONFIDENCE

/-- Constructor arguments of `HybridGestureDetector` that stay fixed over
a run: the cooldown, the Gemini-fallback switch, and whether a Gemini
detector object was supplied. -/
structure HybridConfig where
  cooldown_ms : ℝ
  use_gemini_fallback : Bool
  gemini_configured : Bool

/-- Mutable state of `HybridGestureDetector`.  `gesture_histories` is the
insertion-ordered dict of per-gesture deques; each entry of a deque is a
`(gesture, confidence)` pair exactly as appended by `_update_history`. -/
structure HybridState where
  gesture_histories : List (Gesture × List (Gesture × ℝ))
  current_gesture : Option Gesture
  current_confidence : ℝ
  last_trigger_time : ℝ
  last_triggered_gesture : Option Gesture

/-- The histories dict as built by `__init__`: one deque per configured
gesture (maxlen = its `stability_frames`) plus a `none` deque (maxlen 3),
in insertion order. -/
def initHistories : List (Gesture × List (Gesture × ℝ)) :=
  [(Gesture.open_palm, []), (Gesture.peace_sign, []), (Gesture.thumbs_up, []),
   (Gesture.thumbs_down, []), (Gesture.pointing, []), (Gesture.none, [])]

/-- Deque capacity chosen at construction time for a histories key. -/
def historyMaxlen (g : Gesture) : Nat :=
  match g with
  | Gesture.none => 3
  | _ => stabilityFrames g

/-- Initial `HybridGestureDetector` state. -/
def initState : HybridState :=
  { gesture_histories := initHistories, current_gesture := Option.none,
    current_confidence := 0.0, last_trigger_time := 0.0,
    last_triggered_gesture := Option.none }

/-- `_update_history(gesture, confidence)`: append to that gesture's deque
(when it has one), then, if the confidence reaches the medium threshold,
clear every other gesture's deque. -/
def updateHistoryMap (hists : List (Gesture × List (Gesture × ℝ)))
    (gesture : Gesture) (confidence : ℝ) : List (Gesture × List (Gesture × ℝ)) :=
  let appended := hists.map (fun gh =>
    if gh.1 = gesture then (gh.1, dequeAppend (historyMaxlen gh.1) gh.2 (gesture, confidence))
    else gh)
  if confidence ≥ DEFAULT_MEDIUM_CONFIDENCE then
    appended.map (fun gh => if gh.1 ≠ gesture then (gh.1, ([] : List (Gesture × ℝ))) else gh)
  else appended

/-- `_get_stable_gesture`: first gesture (in dict order, skipping `none`)
whose history has at least its required frames, all naming that gesture;
the returned confidence is the mean over the window. -/
def getStableAux : List (Gesture × List (Gesture × ℝ)) → Option Gesture × ℝ
  | [] => (Option.none, 0.0)
  | (g, history) :: rest =>
    if g = Gesture.none then getStableAux rest
    else if stabilityFrames g ≤ history.length ∧ ∀ h ∈ history, h.1 = g then
      (Option.some g, (history.map Prod.snd).sum / (history.length : ℝ))
    else getStableAux rest

/-- `_try_trigger(gesture, confidence, source)`: `None` while the cooldown
has not elapsed or the candidate equals the last triggered gesture;
otherwise record the trigger in the state and return the triple. -/
def tryTrigger (cfg : HybridConfig) (current_time : ℝ) (st : HybridState)
    (gesture : Gesture) (confidence : ℝ) (source : String) :
    HybridState × Option (Gesture × ℝ × String) :=
  if current_time - st.last_trigger_time < cfg.cooldown_ms then (st, Option.none)
  else if Option.some gesture = st.last_triggered_gesture then (st, Option.none)
  else ({ st with last_trigger_time := current_time,
                  last_triggered_gesture := Option.some gesture,
                  current_gesture := Option.some gesture,
                  current_confidence := confidence },
        Option.some (gesture, confidence, source))

/-- `_verify_with_gemini`: `False` when no Gemini detector is configured,
otherwise the quick-verification oracle's answer (exceptions map to
`False` inside the oracle). -/
def verifyWithGemini (cfg : HybridConfig) (verify : Gesture → Bool)
    (suspected : Gesture) : Bool :=
  if cfg.gemini_configured then verify suspected else false

/-- `_clear_histories`. -/
def clearHistories (hists : List (Gesture × List (Gesture × ℝ))) :
    List (Gesture × List (Gesture × ℝ)) :=
  hists.map (fun gh => (gh.1, ([] : List (Gesture × ℝ))))

/-- `HybridGestureDetector.update(frame, hand_data)`, parametric in the
local classifier `recognize` and in the Gemini quick-verification oracle
`verify`.  Returns the updated state and the optional
`(gesture, confidence, source)` trigger. -/
def hybridUpdate (cfg : HybridConfig) (recognize : HandData → Gesture × ℝ)
    (verify : Gesture → Bool) (current_time : ℝ) (st : HybridState)
    (hand_data : Option HandData) : HybridState × Option (Gesture × ℝ × String) :=
  match hand_data with
  | Option.none => ({ st with gesture_histories := clearHistories st.gesture_histories },
                    Option.none)
  | Option.some hd =>
    let gc := recognize hd
    let gesture := gc.1
    let hand_confidence := hd.confidence
    let confidence := gc.2 * (0.9 + 0.1 * hand_confidence)
    let st1 := { st with
      gesture_histories := updateHistoryMap st.gesture_histories gesture confidence }
    let sg := getStableAux st1.gesture_histories
    let fallthrough :=
      ({ st1 with
          current_gesture :=
            Option.some (if confidence ≥ DEFAULT_LOW_CONFIDENCE then gesture else Gesture.none),
          current_confidence := confidence },
       (Option.none : Option (Gesture × ℝ × String)))
    match sg.1 with
    | Option.none => fallthrough
    | Option.some stable_gesture =>
      if stable_gesture = Gesture.none then fallthrough
      else
        let avg_confidence := sg.2
        if avg_confidence ≥ skipThreshold stable_gesture then
          tryTrigger cfg current_time st1 stable_gesture avg_confidence "local"
        else if avg_confidence ≥ DEFAULT_MEDIUM_CONFIDENCE ∧
                cfg.use_gemini_fallback = true ∧ cfg.gemini_configured = true then
          if verifyWithGemini cfg verify stable_gesture then
            tryTrigger cfg current_time st1 stable_gesture avg_confidence "gemini"
          else fallthrough
        else if avg_confidence ≥ DEFAULT_MEDIUM_CONFIDENCE then
          tryTrigger cfg current_time st1 stable_gesture avg_confidence "local"
        else fallthrough

/-- `HybridGestureDetector.reset`: clear all histories and the current
gesture state, clear `last_triggered_gesture`, keep `last_trigger_time`.
(`local_detector.reset()` only touches recognizer state that
`recognize_with_confidence` never reads, so it has no counterpart here.) -/
def hybridReset (st : HybridState) : HybridState :=
  { st with gesture_histories := clearHistories st.gesture_histories,
            current_gesture := Option.none,
            current_confidence := 0.0,
            last_triggered_gesture := Option.none }

/-- Fold `_update_history` over a list of per-frame `(gesture, confidence)`
classifications, starting from the freshly constructed histories. -/
def runHist (frames : List (Gesture × ℝ)) : List (Gesture × List (Gesture × ℝ)) :=
  frames.foldl (fun H f => updateHistoryMap H f.1 f.2) initHistories

/-! ## Theorems -/

/-- C10: whenever `_try_trigger` returns `None` — which happens exactly when
the cooldown has not elapsed since `last_trigger_time` or the candidate
equals `last_triggered_gesture` — the detector state is left completely
unchanged; the state fields `last_trigger_time`, `last_triggered_gesture`,
`current_gesture` and `current_confidence` are updated only on a successful
trigger, and then to the triggering values. -/
theorem tryTrigger_none_preserves_state (cfg : HybridConfig) (t : ℝ)
    (st : HybridState) (g : Gesture) (c : ℝ) (src : String) :
    ((tryTrigger cfg t st g c src).2 = Option.none ↔
      (t - st.last_trigger_time < cfg.cooldown_ms ∨
       Option.some g = st.last_triggered_gesture)) ∧
    ((tryTrigger cfg t st g c src).2 = Option.none →
      (tryTrigger cfg t st g c src).1 = st) ∧
    ((tryTrigger cfg t st g c src).2 ≠ Option.none →
      (tryTrigger cfg t st g c src).1 =
        { st with last_trigger_time := t,
                  last_triggered_gesture := Option.some g,
                  current_gesture := Option.some g,
                  current_confidence := c }) := by
  unfold tryTrigger
  split_ifs with h1 h2 <;> simp_all

/-- Witness for C10: with cooldown 500 and a trigger recorded at time 0, a
candidate at time 100 is rejected and the state is returned untouched. -/
theorem tryTrigger_none_preserves_state_witness :
    (tryTrigger { cooldown_ms := 500, use_gemini_fallback := true,
                  gemini_configured := true } 100 initState
      Gesture.peace_sign 0.9 "local").1 = initState :=
  (tryTrigger_none_preserves_state _ 100 initState Gesture.peace_sign 0.9 "local").2.1
    (by norm_num [tryTrigger, initState])

/-- C3: after template A triggered at time t (so the state holds
last_trigger_time = t and last_triggered_gesture = A), proposing A again at
t + cooldown/2 does not retrigger (cooldown), proposing A at
t + cooldown + 1 still does not retrigger (a different stable gesture must
intervene), and proposing a different template B at t + cooldown + 1 does
trigger. -/
theorem cooldown_and_same_gesture_suppression (cfg : HybridConfig) (t : ℝ)
    (st : HybridState) (A B : Gesture) (conf : ℝ) (src : String)
    (hcool : 0 < cfg.cooldown_ms)
    (htime : st.last_trigger_time = t)
    (hlast : st.last_triggered_gesture = Option.some A)
    (hne : B ≠ A) :
    (tryTrigger cfg (t + cfg.cooldown_ms / 2) st A conf src).2 = Option.none ∧
    (tryTrigger cfg (t + cfg.cooldown_ms + 1) st A conf src).2 = Option.none ∧
    (tryTrigger cfg (t + cfg.cooldown_ms + 1) st B conf src).2 =
      Option.some (B, conf, src) := by
  refine ⟨?_, ?_, ?_⟩ <;> simp only [tryTrigger, htime, hlast]
  · rw [if_pos (by linarith)]
  · rw [if_neg (by push_neg; linarith)]; simp
  · rw [if_neg (by push_neg; linarith), if_neg (by simp [hne])]

/-- Witness for C3: concrete instance with cooldown 500, A = thumbs_up
triggered at t = 1000, B = peace_sign. -/
theorem cooldown_and_same_gesture_suppression_witness :
    (tryTrigger { cooldown_ms := 500, use_gemini_fallback := true,
                  gemini_configured := true } (1000 + 500 / 2)
      { initState with last_trigger_time := 1000,
                       last_triggered_gesture := Option.some Gesture.thumbs_up }
      Gesture.thumbs_up 0.9 "local").2 = Option.none ∧
    (tryTrigger { cooldown_ms := 500, use_gemini_fallback := true,
                  gemini_configured := true } (1000 + 500 + 1)
      { initState with last_trigger_time := 1000,
                       last_triggered_gesture := Option.some Gesture.thumbs_up }
      Gesture.thumbs_up 0.9 "local").2 = Option.none ∧
    (tryTrigger { cooldown_ms := 500, use_gemini_fallback := true,
                  gemini_configured := true } (1000 + 500 + 1)
      { initState with last_trigger_time := 1000,
                       last_triggered_gesture := Option.some Gesture.thumbs_up }
      Gesture.peace_sign 0.9 "local").2 =
        Option.some (Gesture.peace_sign, 0.9, "local") := by
  have h := cooldown_and_same_gesture_suppression
    { cooldown_ms := 500, use_gemini_fallback := true, gemini_configured := true }
    1000
    { initState with last_trigger_time := 1000,
                     last_triggered_gesture := Option.some Gesture.thumbs_up }
    Gesture.thumbs_up Gesture.peace_sign 0.9 "local"
    (by norm_num) rfl rfl (by decide)
  exact h

/-- Counterexample to C6 as stated: `HybridGestureDetector.reset` does NOT
leave `last_triggered_gesture` unchanged — starting from a state whose
last triggered gesture is peace_sign, reset sets it back to `None`. -/
theorem hybridReset_clears_last_triggered :
    ({ initState with last_triggered_gesture := Option.some Gesture.peace_sign }
        : HybridState).last_triggered_gesture = Option.some Gesture.peace_sign ∧
    (hybridReset { initState with
        last_triggered_gesture := Option.some Gesture.peace_sign
      }).last_triggered_gesture = Option.none ∧
    (hybridReset { initState with
        last_triggered_gesture := Option.some Gesture.peace_sign
      }).last_triggered_gesture ≠
      ({ initState with last_triggered_gesture := Option.some Gesture.peace_sign }
        : HybridState).last_triggered_gesture := by
  refine ⟨rfl, rfl, by simp [hybridReset]⟩

/-- C6 (amended): when the clutch disengages and the detector is reset,
all per-template stability histories are cleared along with the current
gesture state AND `last_triggered_gesture`; only the cooldown timer
`last_trigger_time` survives, so an immediate re-trigger on quick
re-engage is prevented only within the cooldown window. -/
theorem hybridReset_spec (st : HybridState) :
    (hybridReset st).gesture_histories =
      st.gesture_histories.map (fun gh => (gh.1, ([] : List (Gesture × ℝ)))) ∧
    (hybridReset st).current_gesture = Option.none ∧
    (hybridReset st).current_confidence = 0 ∧
    (hybridReset st).last_triggered_gesture = Option.none ∧
    (hybridReset st).last_trigger_time = st.last_trigger_time := by
  refine ⟨rfl, rfl, by norm_num [hybridReset], rfl, rfl⟩

/-- C7: in every frame whose per-frame confidence is at or above the 0.60
medium threshold, `_update_history` clears the history of every template
other than the winning one to length 0; a frame below 0.60 clears nothing
(every other template's entry is passed through unchanged). -/
theorem history_exclusivity (H : List (Gesture × List (Gesture × ℝ)))
    (g : Gesture) (c : ℝ) :
    (DEFAULT_MEDIUM_CONFIDENCE ≤ c →
      ∀ p ∈ updateHistoryMap H g c, p.1 ≠ g → p.2 = []) ∧
    (c < DEFAULT_MEDIUM_CONFIDENCE →
      ∀ p ∈ updateHistoryMap H g c, p.1 ≠ g → p ∈ H) := by
  constructor
  · intro hc p hp hne
    simp only [updateHistoryMap, ge_iff_le, if_pos hc, List.mem_map] at hp
    obtain ⟨q, hq, hpq⟩ := hp
    by_cases hq1 : q.1 ≠ g
    · rw [if_pos hq1] at hpq
      simp [← hpq]
    · rw [if_neg hq1] at hpq
      push_neg at hq1
      exact absurd (hpq ▸ hq1) hne
  · intro hc p hp hne
    simp only [updateHistoryMap, ge_iff_le, if_neg (not_le.mpr hc), List.mem_map] at hp
    obtain ⟨q, hq, hpq⟩ := hp
    by_cases hq1 : q.1 = g
    · rw [if_pos hq1] at hpq
      rw [← hpq] at hne
      exact absurd hq1 hne
    · rw [if_neg hq1] at hpq
      exact hpq ▸ hq
/-- Helper: `_update_history` never changes the key set of the histories
dict (it only appends to or clears existing deques). -/
lemma updateHistoryMap_keys (H : List (Gesture × List (Gesture × ℝ)))
    (g : Gesture) (c : ℝ) :
    (updateHistoryMap H g c).map Prod.fst = H.map Prod.fst := by
  unfold updateHistoryMap
  split_ifs with hc
  · rw [List.map_map, List.map_map]
    refine List.map_congr_left ?_
    intro gh _
    by_cases h1 : gh.1 = g <;> simp [Function.comp, h1]
  · rw [List.map_map]
    refine List.map_congr_left ?_
    intro gh _
    by_cases h1 : gh.1 = g <;> simp [Function.comp, h1]

/-- Helper: the key set survives a whole run of `_update_history` calls. -/
lemma runHist_keys (l : List (Gesture × ℝ)) :
    (runHist l).map Prod.fst = initHistories.map Prod.fst := by
  suffices h : ∀ H, ((l.foldl (fun H f => updateHistoryMap H f.1 f.2) H).map Prod.fst)
      = H.map Prod.fst by
    exact h initHistories
  induction l with
  | nil => intro H; rfl
  | cons f rest ih =>
    intro H
    rw [List.foldl_cons, ih, updateHistoryMap_keys]

/-- Helper: `_get_stable_gesture` only ever reports a gesture that is a key
of the histories dict, and never the literal gesture `none`. -/
lemma getStableAux_some_mem (H : List (Gesture × List (Gesture × ℝ)))
    (g : Gesture) (h : (getStableAux H).1 = Option.some g) :
    g ∈ H.map Prod.fst ∧ g ≠ Gesture.none := by
  induction H with
  | nil => simp [getStableAux] at h
  | cons p rest ih =>
    obtain ⟨k, hist⟩ := p
    rw [getStableAux] at h
    split_ifs at h with h1 h2
    · obtain ⟨hm, hn⟩ := ih h
      exact ⟨by simp [hm], hn⟩
    · simp only [Prod.fst] at h
      injection h with h
      subst h
      exact ⟨by simp, h1⟩
    · obtain ⟨hm, hn⟩ := ih h
      exact ⟨by simp [hm], hn⟩

set_option maxHeartbeats 2000000 in
/-- Counterexample to C4 as stated: with stability_frames = 3 for
thumbs_up, the run thumbs_up(0.7), thumbs_up(0.7), peace_sign(0.3),
thumbs_up(0.7) produces the stable result (thumbs_up, 0.7) even though no
3 consecutive frames named thumbs_up — the low-confidence dissenting frame
neither clears thumbs_up's history nor fails to advance peace_sign's
(after 3 frames peace_sign's history holds one entry). -/
theorem stability_nonconsecutive_counterexample :
    stabilityFrames Gesture.thumbs_up = 3 ∧
    getStableAux (runHist [(Gesture.thumbs_up, 0.7), (Gesture.thumbs_up, 0.7),
      (Gesture.peace_sign, 0.3)]) = (Option.none, 0.0) ∧
    runHist [(Gesture.thumbs_up, 0.7), (Gesture.thumbs_up, 0.7), (Gesture.peace_sign, 0.3)] =
      [(Gesture.open_palm, []), (Gesture.peace_sign, [(Gesture.peace_sign, 0.3)]),
       (Gesture.thumbs_up, [(Gesture.thumbs_up, 0.7), (Gesture.thumbs_up, 0.7)]),
       (Gesture.thumbs_down, []), (Gesture.pointing, []), (Gesture.none, [])] ∧
    getStableAux (runHist [(Gesture.thumbs_up, 0.7), (Gesture.thumbs_up, 0.7),
      (Gesture.peace_sign, 0.3), (Gesture.thumbs_up, 0.7)]) =
      (Option.some Gesture.thumbs_up, 0.7) := by
  norm_num +decide [runHist, updateHistoryMap, initHistories, dequeAppend, historyMaxlen,
    stabilityFrames, DEFAULT_GESTURE_CONFIG, DEFAULT_MEDIUM_CONFIDENCE, getStableAux]

set_option maxHeartbeats 2000000 in
/-- C4 (amended): a template with stability_frames = 3 (thumbs_up) yields
no stable result from only 2 matching frames; a dissenting frame at or
above the 0.60 medium confidence clears the other templates' histories
(resetting their progress toward stability) while starting a history for
its own template; but a dissenting frame below 0.60 leaves the other
histories intact — so the 3 frames naming the template need not be
consecutive — and still appends to its own template's history. -/
theorem stability_window_behaviour :
    (∀ c : ℝ, getStableAux (runHist [(Gesture.thumbs_up, c), (Gesture.thumbs_up, c)]) =
      (Option.none, 0.0)) ∧
    (∀ c d : ℝ, DEFAULT_MEDIUM_CONFIDENCE ≤ d →
      runHist [(Gesture.thumbs_up, c), (Gesture.thumbs_up, c), (Gesture.peace_sign, d)] =
        [(Gesture.open_palm, []), (Gesture.peace_sign, [(Gesture.peace_sign, d)]),
         (Gesture.thumbs_up, []), (Gesture.thumbs_down, []), (Gesture.pointing, []),
         (Gesture.none, [])]) ∧
    (∀ c d : ℝ, d < DEFAULT_MEDIUM_CONFIDENCE →
      runHist [(Gesture.thumbs_up, c), (Gesture.thumbs_up, c), (Gesture.peace_sign, d)] =
        [(Gesture.open_palm, []), (Gesture.peace_sign, [(Gesture.peace_sign, d)]),
         (Gesture.thumbs_up, [(Gesture.thumbs_up, c), (Gesture.thumbs_up, c)]),
         (Gesture.thumbs_down, []), (Gesture.pointing, []), (Gesture.none, [])] ∧
      getStableAux (runHist [(Gesture.thumbs_up, c), (Gesture.thumbs_up, c),
        (Gesture.peace_sign, d), (Gesture.thumbs_up, c)]) =
        (Option.some Gesture.thumbs_up, c)) := by
  refine ⟨?_, ?_, ?_⟩
  · intro c
    by_cases hc : c ≥ DEFAULT_MEDIUM_CONFIDENCE <;>
      norm_num +decide [hc, runHist, updateHistoryMap, initHistories, dequeAppend,
        historyMaxlen, stabilityFrames, DEFAULT_GESTURE_CONFIG, getStableAux]
  · intro c d hd
    by_cases hc : c ≥ DEFAULT_MEDIUM_CONFIDENCE <;>
      norm_num +decide [hc, hd, runHist, updateHistoryMap, initHistories, dequeAppend,
        historyMaxlen, stabilityFrames, DEFAULT_GESTURE_CONFIG, getStableAux]
  · intro c d hd
    by_cases hc : c ≥ DEFAULT_MEDIUM_CONFIDENCE <;>
      norm_num +decide [hc, not_le.mpr hd, runHist, updateHistoryMap, initHistories,
        dequeAppend, historyMaxlen, stabilityFrames, DEFAULT_GESTURE_CONFIG, getStableAux] <;>
      ring

/-- Witness for C4 (amended): the two dissent cases at concrete inputs
(dissent at 0.65 clears thumbs_up's progress; dissent at 0.3 keeps it and
lets thumbs_up go stable on the next matching frame). -/
theorem stability_window_behaviour_witness :
    runHist [(Gesture.thumbs_up, 0.7), (Gesture.thumbs_up, 0.7), (Gesture.peace_sign, 0.65)] =
      [(Gesture.open_palm, []), (Gesture.peace_sign, [(Gesture.peace_sign, 0.65)]),
       (Gesture.thumbs_up, []), (Gesture.thumbs_down, []), (Gesture.pointing, []),
       (Gesture.none, [])] ∧
    getStableAux (runHist [(Gesture.thumbs_up, 0.7), (Gesture.thumbs_up, 0.7),
      (Gesture.peace_sign, 0.3), (Gesture.thumbs_up, 0.7)]) =
      (Option.some Gesture.thumbs_up, 0.7) :=
  ⟨stability_window_behaviour.2.1 0.7 0.65 (by norm_num [DEFAULT_MEDIUM_CONFIDENCE]),
   (stability_window_behaviour.2.2 0.7 0.3 (by norm_num [DEFAULT_MEDIUM_CONFIDENCE])).2⟩

set_option maxHeartbeats 2000000 in
/-- Counterexample to C5 as stated: ok_sign is one of the ten templates,
but the hybrid detector keeps no stability history for it (only the five
default-configured gestures have histories), so even an arbitrarily long
confident run of ok_sign frames leaves the histories empty and produces no
stable candidate. -/
theorem ok_sign_never_stable_counterexample :
    runHist [(Gesture.ok_sign, 0.9), (Gesture.ok_sign, 0.9), (Gesture.ok_sign, 0.9)] =
      initHistories ∧
    getStableAux (runHist [(Gesture.ok_sign, 0.9), (Gesture.ok_sign, 0.9),
      (Gesture.ok_sign, 0.9)]) = (Option.none, 0.0) := by
  norm_num +decide [runHist, updateHistoryMap, initHistories, dequeAppend, historyMaxlen,
    stabilityFrames, DEFAULT_GESTURE_CONFIG, DEFAULT_MEDIUM_CONFIDENCE, getStableAux]

set_option maxHeartbeats 2000000 in
/-- C5 (amended): of the ten recognizer templates, exactly the five with
default per-gesture configuration (open_palm, peace_sign, thumbs_up,
thumbs_down, pointing) have stability histories: for each of them a run of
winning frames of length equal to its required consecutive-frame count
(2 for open_palm, 3 for the others) produces the stable candidate
(template, mean windowed confidence); every stable candidate the stability
check can ever produce is one of these five, so the other five templates
(ok_sign, rock_sign, shaka, three_fingers, four_fingers) never become
stable. -/
theorem five_templates_stability :
    (∀ c : ℝ, getStableAux (runHist [(Gesture.open_palm, c), (Gesture.open_palm, c)]) =
      (Option.some Gesture.open_palm, c)) ∧
    (∀ c : ℝ, getStableAux (runHist [(Gesture.peace_sign, c), (Gesture.peace_sign, c),
      (Gesture.peace_sign, c)]) = (Option.some Gesture.peace_sign, c)) ∧
    (∀ c : ℝ, getStableAux (runHist [(Gesture.thumbs_up, c), (Gesture.thumbs_up, c),
      (Gesture.thumbs_up, c)]) = (Option.some Gesture.thumbs_up, c)) ∧
    (∀ c : ℝ, getStableAux (runHist [(Gesture.thumbs_down, c), (Gesture.thumbs_down, c),
      (Gesture.thumbs_down, c)]) = (Option.some Gesture.thumbs_down, c)) ∧
    (∀ c : ℝ, getStableAux (runHist [(Gesture.pointing, c), (Gesture.pointing, c),
      (Gesture.pointing, c)]) = (Option.some Gesture.pointing, c)) ∧
    (∀ (l : List (Gesture × ℝ)) (g : Gesture),
      (getStableAux (runHist l)).1 = Option.some g →
      (g = Gesture.open_palm ∨ g = Gesture.peace_sign ∨ g = Gesture.thumbs_up ∨
       g = Gesture.thumbs_down ∨ g = Gesture.pointing)) := by
  refine ⟨?_, ?_, ?_, ?_, ?_, ?_⟩
  · intro c
    by_cases hc : c ≥ DEFAULT_MEDIUM_CONFIDENCE <;>
      norm_num +decide [hc, runHist, updateHistoryMap, initHistories, dequeAppend,
        historyMaxlen, stabilityFrames, DEFAULT_GESTURE_CONFIG, getStableAux]
  · intro c
    by_cases hc : c ≥ DEFAULT_MEDIUM_CONFIDENCE <;>
      norm_num +decide [hc, runHist, updateHistoryMap, initHistories, dequeAppend,
        historyMaxlen, stabilityFrames, DEFAULT_GESTURE_CONFIG, getStableAux] <;> ring
  · intro c
    by_cases hc : c ≥ DEFAULT_MEDIUM_CONFIDENCE <;>
      norm_num +decide [hc, runHist, updateHistoryMap, initHistories, dequeAppend,
        historyMaxlen, stabilityFrames, DEFAULT_GESTURE_CONFIG, getStableAux] <;> ring
  · intro c
    by_cases hc : c ≥ DEFAULT_MEDIUM_CONFIDENCE <;>
      norm_num +decide [hc, runHist, updateHistoryMap, initHistories, dequeAppend,
        historyMaxlen, stabilityFrames, DEFAULT_GESTURE_CONFIG, getStableAux] <;> ring
  · intro c
    by_cases hc : c ≥ DEFAULT_MEDIUM_CONFIDENCE <;>
      norm_num +decide [hc, runHist, updateHistoryMap, initHistories, dequeAppend,
        historyMaxlen, stabilityFrames, DEFAULT_GESTURE_CONFIG, getStableAux] <;> ring
  · intro l g h
    obtain ⟨hm, hn⟩ := getStableAux_some_mem _ g h
    rw [runHist_keys] at hm
    simp only [initHistories, List.map_cons, List.map_nil, List.mem_cons,
      List.not_mem_nil, or_false] at hm
    rcases hm with h | h | h | h | h | h <;> first | (exact absurd h hn) | tauto

set_option maxHeartbeats 2000000 in
/-- Witness for C5 (amended): the stable-candidate classification applied
to a concrete confident peace_sign run. -/
theorem five_templates_stability_witness :
    Gesture.peace_sign = Gesture.open_palm ∨ Gesture.peace_sign = Gesture.peace_sign ∨
    Gesture.peace_sign = Gesture.thumbs_up ∨ Gesture.peace_sign = Gesture.thumbs_down ∨
    Gesture.peace_sign = Gesture.pointing :=
  five_templates_stability.2.2.2.2.2
    [(Gesture.peace_sign, 0.9), (Gesture.peace_sign, 0.9), (Gesture.peace_sign, 0.9)]
    Gesture.peace_sign
    (by norm_num +decide [runHist, updateHistoryMap, initHistories, dequeAppend,
      historyMaxlen, stabilityFrames, DEFAULT_GESTURE_CONFIG, DEFAULT_MEDIUM_CONFIDENCE,
      getStableAux])

/-- Witness for C7: with history entries for open_palm present, a
thumbs_up frame at confidence 0.7 (at or above 0.60) leaves every
non-winning entry empty. -/
theorem history_exclusivity_witness :
    ((Gesture.open_palm, ([] : List (Gesture × ℝ))) : Gesture × List (Gesture × ℝ)).2 = [] :=
  (history_exclusivity [(Gesture.open_palm, [(Gesture.open_palm, 0.9)]),
      (Gesture.thumbs_up, [])] Gesture.thumbs_up 0.7).1
    (by norm_num [DEFAULT_MEDIUM_CONFIDENCE])
    (Gesture.open_palm, [])
    (by norm_num +decide [updateHistoryMap, dequeAppend, DEFAULT_MEDIUM_CONFIDENCE,
          historyMaxlen, stabilityFrames, DEFAULT_GESTURE_CONFIG])
    (by decide)

/-- Helper: the three state fields produced by one `ClutchDetector.update`
step, read off the definition. -/
lemma clutchUpdate_fields (st : ClutchState) (h : Option HandData) :
    (clutchUpdate st h).require_stable_frames = st.require_stable_frames ∧
    (clutchUpdate st h).detection_history =
      dequeAppend st.require_stable_frames st.detection_history (is_fist_closed h) ∧
    (clutchUpdate st h).is_engaged =
      (if (dequeAppend st.require_stable_frames st.detection_history
            (is_fist_closed h)).length = st.require_stable_frames
       then (dequeAppend st.require_stable_frames st.detection_history
            (is_fist_closed h)).all id
       else st.is_engaged) :=
  ⟨rfl, rfl, rfl⟩

/-- Helper: appending to a bounded deque holding the last n values of bs
yields the last n values of bs ++ [b]. -/
lemma dequeAppend_drop (bs : List Bool) (b : Bool) (n : Nat) (hn : 0 < n) :
    dequeAppend n (bs.drop (bs.length - n)) b = (bs ++ [b]).drop (bs.length + 1 - n) := by
  have hlen : (bs.drop (bs.length - n)).length = bs.length - (bs.length - n) := by
    simp [List.length_drop]
  unfold dequeAppend
  by_cases hL : bs.length < n
  · have h1 : bs.length - n = 0 := by omega
    have h2 : bs.length + 1 - n = 0 := by omega
    rw [if_neg (by
      simp only [List.length_append, List.length_cons, List.length_nil, hlen]
      omega)]
    simp [h1, h2]
  · push_neg at hL
    have hm : bs.length - (bs.length - n) = n := by omega
    have hlenn : (bs.drop (bs.length - n)).length = n := by rw [hlen, hm]
    rw [if_pos (by simp [hlenn])]
    have hd1 : (bs.drop (bs.length - n) ++ [b]).length - n = 1 := by simp [hlenn]
    rw [hd1]
    rw [List.drop_append_of_le_length (by omega : 1 ≤ (bs.drop (bs.length - n)).length)]
    rw [List.drop_drop]
    rw [List.drop_append_of_le_length (by omega : bs.length + 1 - n ≤ bs.length)]
    congr 2
    omega

/-- Helper invariant of `ClutchDetector`: after any frame sequence the
history holds the last n fist tests, and the detector is engaged exactly
when at least n frames were seen and the last n tests were all true. -/
lemma runClutch_invariant (n : Nat) (hn : 0 < n) (hs : List (Option HandData)) :
    (runClutch n hs).require_stable_frames = n ∧
    (runClutch n hs).detection_history =
      (hs.map is_fist_closed).drop (hs.length - n) ∧
    (runClutch n hs).is_engaged =
      (decide (n ≤ hs.length) && ((hs.map is_fist_closed).drop (hs.length - n)).all id) := by
  induction hs using List.reverseRecOn with
  | nil =>
    have h0 : ¬ (n ≤ 0) := by omega
    exact ⟨rfl, by simp [runClutch, initClutch], by simp [runClutch, initClutch, h0]⟩
  | append_singleton hs h ih =>
    obtain ⟨ihr, ihh, ihe⟩ := ih
    have hstep : runClutch n (hs ++ [h]) = clutchUpdate (runClutch n hs) h := by
      simp [runClutch, List.foldl_append]
    obtain ⟨f1, f2, f3⟩ := clutchUpdate_fields (runClutch n hs) h
    have hda := dequeAppend_drop (hs.map is_fist_closed) (is_fist_closed h) n hn
    simp only [List.length_map] at hda
    rw [hstep]
    rw [f1, f2, f3] at *
    rw [ihr, ihh, ihe, hda]
    simp only [List.map_append, List.map_cons, List.map_nil, List.length_append,
      List.length_cons, List.length_nil, Nat.add_zero, Nat.zero_add]
    refine ⟨trivial, trivial, ?_⟩
    have hlen : (((hs.map is_fist_closed) ++ [is_fist_closed h]).drop (hs.length + 1 - n)).length
        = (hs.length + 1) - (hs.length + 1 - n) := by
      simp [List.length_drop]
    by_cases hL : n ≤ hs.length + 1
    · have hfull : (((hs.map is_fist_closed) ++ [is_fist_closed h]).drop
          (hs.length + 1 - n)).length = n := by
        rw [hlen]; omega
      rw [if_pos hfull]
      simp [hL]
    · have hne : (((hs.map is_fist_closed) ++ [is_fist_closed h]).drop
          (hs.length + 1 - n)).length ≠ n := by
        rw [hlen]; omega
      rw [if_neg hne]
      have h1 : ¬ n ≤ hs.length := by omega
      simp [h1, hL]

/-- A concrete closed-fist skeleton: every fingertip (4, 8, 12, 16, 20)
lies below its reference joint. -/
def fistY (i : Nat) : ℝ := if i = 4 ∨ i = 8 ∨ i = 12 ∨ i = 16 ∨ i = 20 then 0.9 else 0.5

/-- Concrete hand data whose fist test is true. -/
def fistHand : HandData :=
  { landmarks := fun i => { x := 0, y := fistY i, z := 0 }, confidence := 1 }

/-- C2: with require_stable_frames = 5, `ClutchDetector.update` reports
engagement exactly when at least 5 frames have been fed and the closed-fist
test held on the last 5 of them (so 5 consecutive closed-fist frames engage
it); once engaged, a single frame whose fist test is false — including a
missing hand, whose test is false — disengages it on that same frame; and
before the 5-entry window is full the clutch never engages. -/
theorem clutch_hysteresis :
    (∀ hs : List (Option HandData),
      ((runClutch 5 hs).is_engaged = true ↔
        5 ≤ hs.length ∧ ((hs.map is_fist_closed).drop (hs.length - 5)).all id = true)) ∧
    (∀ (hs : List (Option HandData)) (h : Option HandData), is_fist_closed h = false →
      (runClutch 5 (hs ++ [h])).is_engaged = false) ∧
    (∀ hs : List (Option HandData), hs.length < 5 → (runClutch 5 hs).is_engaged = false) ∧
    is_fist_closed Option.none = false := by
  have key : ∀ hs : List (Option HandData),
      ((runClutch 5 hs).is_engaged = true ↔
        5 ≤ hs.length ∧ ((hs.map is_fist_closed).drop (hs.length - 5)).all id = true) := by
    intro hs
    rw [(runClutch_invariant 5 (by norm_num) hs).2.2]
    simp [Bool.and_eq_true]
  refine ⟨key, ?_, ?_, rfl⟩
  · intro hs h hfist
    by_contra hcon
    rw [Bool.not_eq_false] at hcon
    obtain ⟨hlen, hall⟩ := (key (hs ++ [h])).mp hcon
    have hmem : is_fist_closed h ∈
        (((hs ++ [h]).map is_fist_closed).drop ((hs ++ [h]).length - 5)) := by
      rw [List.map_append]
      rw [List.drop_append_of_le_length (by simp only [List.length_append,
        List.length_cons, List.length_nil, List.length_map] at hlen ⊢; omega)]
      simp
    have := List.all_eq_true.mp hall _ hmem
    rw [hfist] at this
    simp at this
  · intro hs hlt
    rw [(runClutch_invariant 5 (by norm_num) hs).2.2]
    have : ¬ (5 ≤ hs.length) := by omega
    simp [this]

/-- Witness for C2: five closed-fist frames engage the clutch; one more
frame with the hand missing disengages it on that frame. -/
theorem clutch_hysteresis_witness :
    (runClutch 5 (List.replicate 5 (Option.some fistHand))).is_engaged = true ∧
    (runClutch 5 (List.replicate 5 (Option.some fistHand) ++
      [Option.none])).is_engaged = false := by
  constructor
  · refine (clutch_hysteresis.1 _).mpr ⟨by simp, ?_⟩
    have hf : is_fist_closed (Option.some fistHand) = true := by
      norm_num +decide [is_fist_closed, fistHand, fistY]
    simp [List.map_replicate, hf]
  · exact clutch_hysteresis.2.1 _ _ rfl

/-- Helper: when `_try_trigger` returns a triple, its gesture component is
the candidate that was passed in. -/
lemma tryTrigger_some_fst (cfg : HybridConfig) (t : ℝ) (st : HybridState)
    (g : Gesture) (c : ℝ) (src : String) (r : Gesture × ℝ × String)
    (h : (tryTrigger cfg t st g c src).2 = Option.some r) : r.1 = g := by
  unfold tryTrigger at h
  split_ifs at h
  all_goals simp at h
  all_goals rw [← h]

/-- C1 (amended): for a stable candidate g with window average avg, when
the trigger checks pass (cooldown elapsed, candidate differs from the last
triggered gesture): if avg is at or above g's per-gesture high threshold
(default 0.80; 0.75 for open_palm) the update triggers with source "local"
for EVERY verifier oracle (so no verifier call can influence it); if avg
lies in the medium band [0.60, high) and a verifier is configured and
enabled, the update triggers exactly when the verifier confirms — but with
source "gemini" (rendered as "verified" only by the UI layer), not
"verified"; and a sub-0.40-floor frame is classified as the gesture none,
which is never a stable candidate, so no trigger ever names it (a trigger
on such a frame can only come from a previously filled history). -/
theorem confidence_banding
    (cfg : HybridConfig) (recognize : HandData → Gesture × ℝ) (t : ℝ)
    (st : HybridState) (hd : HandData) (g : Gesture) (avg : ℝ)
    (hsg : getStableAux (updateHistoryMap st.gesture_histories (recognize hd).1
          ((recognize hd).2 * (0.9 + 0.1 * hd.confidence))) = (Option.some g, avg)) :
    (avg ≥ skipThreshold g →
      cfg.cooldown_ms ≤ t - st.last_trigger_time →
      Option.some g ≠ st.last_triggered_gesture →
      ∀ verify : Gesture → Bool,
        (hybridUpdate cfg recognize verify t st (Option.some hd)).2 =
          Option.some (g, avg, "local")) ∧
    (avg < skipThreshold g → DEFAULT_MEDIUM_CONFIDENCE ≤ avg →
      cfg.use_gemini_fallback = true → cfg.gemini_configured = true →
      cfg.cooldown_ms ≤ t - st.last_trigger_time →
      Option.some g ≠ st.last_triggered_gesture →
      ∀ verify : Gesture → Bool,
        ((hybridUpdate cfg recognize verify t st (Option.some hd)).2 =
            Option.some (g, avg, "gemini") ↔ verify g = true)) ∧
    (∀ (cfg2 : HybridConfig) (recognize2 : HandData → Gesture × ℝ)
       (verify2 : Gesture → Bool) (t2 : ℝ) (st2 : HybridState)
       (hd2 : Option HandData) (r : Gesture × ℝ × String),
      (hybridUpdate cfg2 recognize2 verify2 t2 st2 hd2).2 = Option.some r →
      r.1 ≠ Gesture.none) := by
  have hgn : g ≠ Gesture.none :=
    (getStableAux_some_mem (updateHistoryMap st.gesture_histories (recognize hd).1
        ((recognize hd).2 * (0.9 + 0.1 * hd.confidence))) g (by rw [hsg])).2
  refine ⟨?_, ?_, ?_⟩
  · intro hskip hcool hdiff verify
    unfold hybridUpdate
    dsimp only
    rw [hsg]
    dsimp only
    rw [if_neg hgn, if_pos hskip]
    unfold tryTrigger
    dsimp only
    rw [if_neg (not_lt.mpr hcool), if_neg hdiff]
  · intro hlow hmed huse hconf hcool hdiff verify
    have hverify : verifyWithGemini cfg verify g = verify g := by
      unfold verifyWithGemini
      rw [hconf]
      simp
    unfold hybridUpdate
    dsimp only
    rw [hsg]
    dsimp only
    rw [if_neg hgn, if_neg (not_le.mpr hlow), if_pos ⟨hmed, huse, hconf⟩, hverify]
    by_cases hv : verify g = true
    · rw [if_pos hv]
      unfold tryTrigger
      dsimp only
      rw [if_neg (not_lt.mpr hcool), if_neg hdiff]
      simp [hv]
    · rw [if_neg (by simpa using hv)]
      dsimp only
      simp [hv]
  · intro cfg2 recognize2 verify2 t2 st2 hd2 r hr
    match hd2 with
    | Option.none => simp [hybridUpdate] at hr
    | Option.some hd2 =>
      unfold hybridUpdate at hr
      dsimp only at hr
      rcases hsg2 : (getStableAux (updateHistoryMap st2.gesture_histories (recognize2 hd2).1
          ((recognize2 hd2).2 * (0.9 + 0.1 * hd2.confidence)))) with ⟨og, a⟩
      rw [hsg2] at hr
      dsimp only at hr
      match og with
      | Option.none => simp at hr
      | Option.some g2 =>
        have hg2 : g2 ≠ Gesture.none :=
          (getStableAux_some_mem (updateHistoryMap st2.gesture_histories (recognize2 hd2).1
              ((recognize2 hd2).2 * (0.9 + 0.1 * hd2.confidence))) g2 (by rw [hsg2])).2
        dsimp only at hr
        rw [if_neg hg2] at hr
        split_ifs at hr <;>
          first
            | (exact absurd hr (by simp))
            | (rw [tryTrigger_some_fst _ _ _ _ _ _ _ hr]; exact hg2)

/-- A synthetic pose carrying a marker value in landmark 0; used to drive
a stub classifier, exactly like the spec's engineered-score test poses. -/
def stubPose (v : ℝ) : HandData :=
  { landmarks := fun _ => { x := v, y := 0, z := 0 }, confidence := 1 }

/-- A stub local classifier: marker 1 scores thumbs_up at 0.65, marker 2
scores peace_sign at 0.85, anything else is below the floor (none, 0). -/
def stubClassify (h : HandData) : Gesture × ℝ :=
  if (h.landmarks 0).x = 1 then (Gesture.thumbs_up, 0.65)
  else if (h.landmarks 0).x = 2 then (Gesture.peace_sign, 0.85)
  else (Gesture.none, 0.0)

/-- Detector configuration with a configured, enabled verifier and the
default 500 ms cooldown. -/
def cbConfig : HybridConfig :=
  { cooldown_ms := 500, use_gemini_fallback := true, gemini_configured := true }

/-- Feed a timed frame sequence through `HybridGestureDetector.update`,
collecting the per-frame trigger results. -/
def hybridRun (cfg : HybridConfig) (recognize : HandData → Gesture × ℝ)
    (verify : Gesture → Bool) :
    HybridState → List (ℝ × Option HandData) →
      HybridState × List (Option (Gesture × ℝ × String))
  | st, [] => (st, [])
  | st, f :: rest =>
    let r := hybridUpdate cfg recognize verify f.1 st f.2
    let rr := hybridRun cfg recognize verify r.1 rest
    (rr.1, r.2 :: rr.2)

/-- The frame sequence of the C1 counterexample: three thumbs_up frames at
0.65, three peace_sign frames at 0.85 (stable at 1005, but inside the
cooldown of the 1002 trigger), then a frame whose pose scores below the
0.40 floor at time 1600. -/
def cbFrames : List (ℝ × Option HandData) :=
  [(1000, Option.some (stubPose 1)), (1001, Option.some (stubPose 1)),
   (1002, Option.some (stubPose 1)), (1003, Option.some (stubPose 2)),
   (1004, Option.some (stubPose 2)), (1005, Option.some (stubPose 2)),
   (1600, Option.some (stubPose 0))]

set_option maxHeartbeats 4000000 in
/-- Counterexample to C1 as stated, on one concrete run: the medium-band
verifier-confirmed trigger at frame 3 carries source "gemini", not
"verified"; and frame 7, whose pose is classified below the 0.40 floor
(as (none, 0)), nevertheless triggers peace_sign from the stale history
filled at frames 4-6 — so a sub-floor frame CAN trigger. -/
theorem confidence_banding_counterexample :
    stubClassify (stubPose 0) = (Gesture.none, 0.0) ∧
    (hybridRun cbConfig stubClassify (fun _ => true) initState cbFrames).2 =
      [Option.none, Option.none, Option.some (Gesture.thumbs_up, 0.65, "gemini"),
       Option.none, Option.none, Option.none,
       Option.some (Gesture.peace_sign, 0.85, "local")] ∧
    "gemini" ≠ "verified" := by
  refine ⟨by norm_num [stubClassify, stubPose], ?_, by decide⟩
  norm_num +decide [hybridRun, cbFrames, cbConfig, hybridUpdate, stubClassify, stubPose,
    initState, initHistories, updateHistoryMap, dequeAppend, historyMaxlen, stabilityFrames,
    DEFAULT_GESTURE_CONFIG, DEFAULT_MEDIUM_CONFIDENCE, DEFAULT_LOW_CONFIDENCE,
    getStableAux, skipThreshold, DEFAULT_HIGH_CONFIDENCE, tryTrigger, verifyWithGemini,
    clearHistories]

set_option maxHeartbeats 1000000 in
/-- Witness for C1 (amended): a thumbs_up candidate stable at window
average 0.65 — in the medium band — with the verifier configured, enabled
and confirming, triggers with source "gemini". -/
theorem confidence_banding_witness :
    (hybridUpdate cbConfig (fun _ => (Gesture.thumbs_up, 0.65)) (fun _ => true) 1000
      { gesture_histories := [(Gesture.open_palm, []), (Gesture.peace_sign, []),
          (Gesture.thumbs_up, [(Gesture.thumbs_up, 0.65), (Gesture.thumbs_up, 0.65)]),
          (Gesture.thumbs_down, []), (Gesture.pointing, []), (Gesture.none, [])],
        current_gesture := Option.none, current_confidence := 0,
        last_trigger_time := 0, last_triggered_gesture := Option.none }
      (Option.some (stubPose 1))).2 = Option.some (Gesture.thumbs_up, 0.65, "gemini") := by
  have h := (confidence_banding cbConfig (fun _ => (Gesture.thumbs_up, 0.65)) 1000
    { gesture_histories := [(Gesture.open_palm, []), (Gesture.peace_sign, []),
        (Gesture.thumbs_up, [(Gesture.thumbs_up, 0.65), (Gesture.thumbs_up, 0.65)]),
        (Gesture.thumbs_down, []), (Gesture.pointing, []), (Gesture.none, [])],
      current_gesture := Option.none, current_confidence := 0,
      last_trigger_time := 0, last_triggered_gesture := Option.none }
    (stubPose 1) Gesture.thumbs_up 0.65
    (by norm_num +decide [stubPose, updateHistoryMap, dequeAppend, historyMaxlen,
      stabilityFrames, DEFAULT_GESTURE_CONFIG, DEFAULT_MEDIUM_CONFIDENCE, getStableAux])).2.1
    (by norm_num [skipThreshold, DEFAULT_GESTURE_CONFIG])
    (by norm_num [DEFAULT_MEDIUM_CONFIDENCE])
    rfl rfl
    (by norm_num [cbConfig])
    (by simp)
    (fun _ => true)
  exact h.mpr rfl

/-- Helper: Python's max over a nonempty association list, realized as a
left fold that replaces the running best only on a strictly greater score:
the result dominates every score and is one of the entries. -/
lemma bestOf_fold_spec (l : List (Gesture × ℝ)) (p0 : Gesture × ℝ) :
    (∀ p ∈ p0 :: l, p.2 ≤ (List.foldl (fun best q => if q.2 > best.2 then q else best) p0 l).2) ∧
    (List.foldl (fun best q => if q.2 > best.2 then q else best) p0 l) ∈ p0 :: l := by
  induction l generalizing p0 with
  | nil => exact ⟨by simp, by simp⟩
  | cons q rest ih =>
    obtain ⟨ihle, ihmem⟩ := ih (if q.2 > p0.2 then q else p0)
    rw [List.foldl_cons]
    constructor
    · intro p hp
      rcases List.mem_cons.mp hp with rfl | hp2
      · refine le_trans ?_ (ihle _ (List.mem_cons_self _ _))
        by_cases hq : q.2 > p.2
        · rw [if_pos hq]; exact le_of_lt hq
        · rw [if_neg hq]
      · rcases List.mem_cons.mp hp2 with rfl | hp3
        · refine le_trans ?_ (ihle _ (List.mem_cons_self _ _))
          by_cases hq : p.2 > p0.2
          · rw [if_pos hq]
          · rw [if_neg hq]; exact le_of_not_lt hq
        · exact ihle p (List.mem_cons_of_mem _ hp3)
    · rcases List.mem_cons.mp ihmem with h | h
      · rw [h]
        by_cases hq : q.2 > p0.2
        · rw [if_pos hq]; exact List.mem_cons_of_mem _ (List.mem_cons_self _ _)
        · rw [if_neg hq]; exact List.mem_cons_self _ _
      · exact List.mem_cons_of_mem _ (List.mem_cons_of_mem _ h)

/-- Helper: `bestOf` on a nonempty list is a maximal entry of the list. -/
lemma bestOf_spec (p0 : Gesture × ℝ) (l : List (Gesture × ℝ)) :
    (∀ p ∈ p0 :: l, p.2 ≤ (bestOf (p0 :: l)).2) ∧ bestOf (p0 :: l) ∈ p0 :: l :=
  bestOf_fold_spec l p0

set_option maxHeartbeats 4000000 in
/-- Helper: one frame into freshly built histories can never fill any
stability window (the smallest required count is 2). -/
lemma getStable_after_one (g : Gesture) (c : ℝ) :
    getStableAux (updateHistoryMap initHistories g c) = (Option.none, 0.0) := by
  cases g <;>
    (by_cases hc : c ≥ DEFAULT_MEDIUM_CONFIDENCE <;>
      norm_num +decide [hc, updateHistoryMap, initHistories, dequeAppend, historyMaxlen,
        stabilityFrames, DEFAULT_GESTURE_CONFIG, getStableAux])

/-- C8: `recognize_with_confidence` computes a confidence for all ten
templates (the score table lists exactly the ten, in dict order) and picks
a maximizing template: the returned pair is an entry of the table whose
score dominates all ten; when the maximum is below the 0.40 floor it
returns (none, 0); and in `HybridGestureDetector.update` the per-frame
confidence recorded for the frame (here read off the first frame's
current_confidence) is the recognizer score multiplied by the
hand-tracking-quality factor 0.9 + 0.1 * handedness confidence. -/
theorem recognize_confidence_spec (hd : HandData) :
    (scoresList hd).map Prod.fst =
      [Gesture.open_palm, Gesture.peace_sign, Gesture.thumbs_up, Gesture.thumbs_down,
       Gesture.pointing, Gesture.ok_sign, Gesture.rock_sign, Gesture.shaka,
       Gesture.three_fingers, Gesture.four_fingers] ∧
    (∀ p ∈ scoresList hd, p.2 ≤ (bestOf (scoresList hd)).2) ∧
    bestOf (scoresList hd) ∈ scoresList hd ∧
    ((bestOf (scoresList hd)).2 < 0.40 →
      recognize_with_confidence (Option.some hd) = (Gesture.none, 0.0)) ∧
    (0.40 ≤ (bestOf (scoresList hd)).2 →
      recognize_with_confidence (Option.some hd) = bestOf (scoresList hd)) ∧
    (∀ (cfg : HybridConfig) (verify : Gesture → Bool) (t : ℝ),
      (hybridUpdate cfg (fun h => recognize_with_confidence (Option.some h)) verify t
        initState (Option.some hd)).1.current_confidence =
        (recognize_with_confidence (Option.some hd)).2 * (0.9 + 0.1 * hd.confidence)) := by
  obtain ⟨hle, hmem⟩ := bestOf_spec (Gesture.open_palm, open_palm_confidence (Option.some hd))
    [(Gesture.peace_sign, peace_sign_confidence (Option.some hd)),
     (Gesture.thumbs_up, thumbs_up_confidence (Option.some hd)),
     (Gesture.thumbs_down, thumbs_down_confidence (Option.some hd)),
     (Gesture.pointing, pointing_confidence (Option.some hd)),
     (Gesture.ok_sign, ok_sign_confidence (Option.some hd)),
     (Gesture.rock_sign, rock_sign_confidence (Option.some hd)),
     (Gesture.shaka, shaka_confidence (Option.some hd)),
     (Gesture.three_fingers, three_fingers_confidence (Option.some hd)),
     (Gesture.four_fingers, four_fingers_confidence (Option.some hd))]
  refine ⟨by simp [scoresList], hle, hmem, ?_, ?_, ?_⟩
  · intro h
    unfold recognize_with_confidence
    dsimp only
    rw [if_pos h]
  · intro h
    unfold recognize_with_confidence
    dsimp only
    rw [if_neg (not_lt.mpr h)]
  · intro cfg verify t
    have h1 := getStable_after_one (recognize_with_confidence (Option.some hd)).1
      ((recognize_with_confidence (Option.some hd)).2 * (0.9 + 0.1 * hd.confidence))
    unfold hybridUpdate
    dsimp only
    rw [show initState.gesture_histories = initHistories from rfl]
    rw [h1]

/-- A degenerate skeleton with every landmark at the origin: every base
gate fails on it, so every template scores 0 and the recognizer reports
(none, 0). -/
def zeroHand : HandData :=
  { landmarks := fun _ => { x := 0, y := 0, z := 0 }, confidence := 1 }

set_option maxHeartbeats 2000000 in
/-- Witness for C8: on the degenerate zero skeleton every template scores
0, the maximum is below the floor, and the recognizer returns (none, 0). -/
theorem recognize_confidence_spec_witness :
    recognize_with_confidence (Option.some zeroHand) = (Gesture.none, 0.0) :=
  (recognize_confidence_spec zeroHand).2.2.2.1 (by
    norm_num [scoresList, bestOf, zeroHand, open_palm_confidence, peace_sign_confidence,
      thumbs_up_confidence, thumbs_down_confidence, pointing_confidence, ok_sign_confidence,
      rock_sign_confidence, shaka_confidence, three_fingers_confidence, four_fingers_confidence,
      open_palm_gate, peace_sign_gate, thumbs_up_gate, thumbs_down_gate, pointing_gate,
      ok_sign_gate, rock_sign_gate, shaka_gate, three_fingers_gate, four_fingers_gate,
      is_finger_extended, is_thumb_extended_up, is_thumb_extended_down, okTipDistance])

/-! ### Per-template gate and bound lemmas (C9) -/

/-- Helper: an if-then-else of nonnegative reals is nonnegative. -/
lemma ite_nonneg (P : Prop) [Decidable P] {x y : ℝ} (hx : 0 ≤ x) (hy : 0 ≤ y) :
    0 ≤ if P then x else y := by split_ifs <;> assumption

/-- Helper: an if-then-else of values in [0, 1] stays in [0, 1]. -/
lemma ite_bounds (P : Prop) [Decidable P] {x y : ℝ}
    (hx : 0 ≤ x ∧ x ≤ 1) (hy : 0 ≤ y ∧ y ≤ 1) :
    0 ≤ (if P then x else y) ∧ (if P then x else y) ≤ 1 := by
  split_ifs <;> assumption

/-- Helper: the final `min(confidence, 1.0)` clamp lands in [0, 1] for a
nonnegative running confidence. -/
lemma min_one_bounds {x : ℝ} (hx : 0 ≤ x) :
    0 ≤ min x (1.0 : ℝ) ∧ min x (1.0 : ℝ) ≤ 1 := by
  constructor
  · exact le_min hx (by norm_num)
  · calc min x (1.0 : ℝ) ≤ (1.0 : ℝ) := min_le_right x 1.0
    _ ≤ 1 := by norm_num

/-- Helper: `open_palm_confidence` is 0 when fewer than 4 of the 5 finger
extension tests hold. -/
lemma open_palm_zero (hd : HandData) (h : ¬ open_palm_gate hd) :
    open_palm_confidence (Option.some hd) = 0 := by
  unfold open_palm_gate at h
  dsimp only at h
  unfold open_palm_confidence
  dsimp only
  rw [if_neg (fun hconj =>
        h (by obtain ⟨a, b, c1, d, e⟩ := hconj; simp [a, b, c1, d, e])),
      if_neg h]
  norm_num

/-- Helper: `open_palm_confidence` lies in [0, 1]. -/
lemma open_palm_bounds (hd : HandData) :
    0 ≤ open_palm_confidence (Option.some hd) ∧
    open_palm_confidence (Option.some hd) ≤ 1 := by
  unfold open_palm_confidence
  dsimp only
  refine ite_bounds _ ?_ (ite_bounds _ ?_ (by norm_num)) <;>
    exact min_one_bounds (by
      repeat
        first
          | apply ite_nonneg
          | apply add_nonneg
          | norm_num)

/-- Helper: `peace_sign_confidence` is 0 when its base gate fails. -/
lemma peace_zero (hd : HandData) (h : ¬ peace_sign_gate hd) :
    peace_sign_confidence (Option.some hd) = 0 := by
  unfold peace_sign_confidence
  dsimp only
  rw [if_neg h]
  norm_num

/-- Helper: `peace_sign_confidence` lies in [0, 1]. -/
lemma peace_bounds (hd : HandData) :
    0 ≤ peace_sign_confidence (Option.some hd) ∧
    peace_sign_confidence (Option.some hd) ≤ 1 := by
  unfold peace_sign_confidence
  dsimp only
  refine ite_bounds _ ?_ (by norm_num)
  exact min_one_bounds (by
    repeat
      first
        | apply ite_nonneg
        | apply add_nonneg
        | norm_num)

/-- Helper: `thumbs_up_confidence` is 0 when its base gate fails. -/
lemma thumbs_up_zero (hd : HandData) (h : ¬ thumbs_up_gate hd) :
    thumbs_up_confidence (Option.some hd) = 0 := by
  unfold thumbs_up_confidence
  dsimp only
  rw [if_neg h]
  norm_num

/-- Helper: `thumbs_up_confidence` lies in [0, 1]. -/
lemma thumbs_up_bounds (hd : HandData) :
    0 ≤ thumbs_up_confidence (Option.some hd) ∧
    thumbs_up_confidence (Option.some hd) ≤ 1 := by
  unfold thumbs_up_confidence
  dsimp only
  refine ite_bounds _ ?_ (by norm_num)
  exact min_one_bounds (by
    repeat
      first
        | apply ite_nonneg
        | apply add_nonneg
        | norm_num)

/-- Helper: `thumbs_down_confidence` is 0 when its base gate fails. -/
lemma thumbs_down_zero (hd : HandData) (h : ¬ thumbs_down_gate hd) :
    thumbs_down_confidence (Option.some hd) = 0 := by
  unfold thumbs_down_confidence
  dsimp only
  rw [if_neg h]
  norm_num

/-- Helper: `thumbs_down_confidence` lies in [0, 1]. -/
lemma thumbs_down_bounds (hd : HandData) :
    0 ≤ thumbs_down_confidence (Option.some hd) ∧
    thumbs_down_confidence (Option.some hd) ≤ 1 := by
  unfold thumbs_down_confidence
  dsimp only
  refine ite_bounds _ ?_ (by norm_num)
  exact min_one_bounds (by
    repeat
      first
        | apply ite_nonneg
        | apply add_nonneg
        | norm_num)

/-- Helper: `pointing_confidence` is 0 when its base gate fails. -/
lemma pointing_zero (hd : HandData) (h : ¬ pointing_gate hd) :
    pointing_confidence (Option.some hd) = 0 := by
  unfold pointing_confidence
  dsimp only
  rw [if_neg h]
  norm_num

/-- Helper: `pointing_confidence` lies in [0, 1]. -/
lemma pointing_bounds (hd : HandData) :
    0 ≤ pointing_confidence (Option.some hd) ∧
    pointing_confidence (Option.some hd) ≤ 1 := by
  unfold pointing_confidence
  dsimp only
  refine ite_bounds _ ?_ (by norm_num)
  exact min_one_bounds (by
    repeat
      first
        | apply ite_nonneg
        | apply add_nonneg
        | norm_num)

/-- Helper: `ok_sign_confidence` is 0 when its base gate fails. -/
lemma ok_sign_zero (hd : HandData) (h : ¬ ok_sign_gate hd) :
    ok_sign_confidence (Option.some hd) = 0 := by
  unfold ok_sign_confidence
  dsimp only
  rw [if_neg h]
  norm_num

/-- Helper: `ok_sign_confidence` lies in [0, 1]. -/
lemma ok_sign_bounds (hd : HandData) :
    0 ≤ ok_sign_confidence (Option.some hd) ∧
    ok_sign_confidence (Option.some hd) ≤ 1 := by
  unfold ok_sign_confidence
  dsimp only
  refine ite_bounds _ ?_ (by norm_num)
  exact min_one_bounds (by
    repeat
      first
        | apply ite_nonneg
        | apply add_nonneg
        | norm_num)

/-- Helper: `rock_sign_confidence` is 0 when its base gate fails. -/
lemma rock_sign_zero (hd : HandData) (h : ¬ rock_sign_gate hd) :
    rock_sign_confidence (Option.some hd) = 0 := by
  unfold rock_sign_confidence
  dsimp only
  rw [if_neg h]
  norm_num

/-- Helper: `rock_sign_confidence` lies in [0, 1]. -/
lemma rock_sign_bounds (hd : HandData) :
    0 ≤ rock_sign_confidence (Option.some hd) ∧
    rock_sign_confidence (Option.some hd) ≤ 1 := by
  unfold rock_sign_confidence
  dsimp only
  refine ite_bounds _ ?_ (by norm_num)
  exact min_one_bounds (by
    repeat
      first
        | apply ite_nonneg
        | apply add_nonneg
        | norm_num)

/-- Helper: `shaka_confidence` is 0 when its base gate fails. -/
lemma shaka_zero (hd : HandData) (h : ¬ shaka_gate hd) :
    shaka_confidence (Option.some hd) = 0 := by
  unfold shaka_confidence
  dsimp only
  rw [if_neg h]
  norm_num

/-- Helper: `shaka_confidence` lies in [0, 1]. -/
lemma shaka_bounds (hd : HandData) :
    0 ≤ shaka_confidence (Option.some hd) ∧
    shaka_confidence (Option.some hd) ≤ 1 := by
  unfold shaka_confidence
  dsimp only
  refine ite_bounds _ ?_ (by norm_num)
  exact min_one_bounds (by
    repeat
      first
        | apply ite_nonneg
        | apply add_nonneg
        | norm_num)

/-- Helper: `three_fingers_confidence` is 0 when its base gate fails. -/
lemma three_fingers_zero (hd : HandData) (h : ¬ three_fingers_gate hd) :
    three_fingers_confidence (Option.some hd) = 0 := by
  unfold three_fingers_confidence
  dsimp only
  rw [if_neg h]
  norm_num

/-- Helper: `three_fingers_confidence` lies in [0, 1]. -/
lemma three_fingers_bounds (hd : HandData) :
    0 ≤ three_fingers_confidence (Option.some hd) ∧
    three_fingers_confidence (Option.some hd) ≤ 1 := by
  unfold three_fingers_confidence
  dsimp only
  refine ite_bounds _ ?_ (by norm_num)
  exact min_one_bounds (by
    repeat
      first
        | apply ite_nonneg
        | apply add_nonneg
        | norm_num)

/-- Helper: `four_fingers_confidence` is 0 when its base gate fails. -/
lemma four_fingers_zero (hd : HandData) (h : ¬ four_fingers_gate hd) :
    four_fingers_confidence (Option.some hd) = 0 := by
  unfold four_fingers_confidence
  dsimp only
  rw [if_neg h]
  norm_num

/-- Helper: `four_fingers_confidence` lies in [0, 1]. -/
lemma four_fingers_bounds (hd : HandData) :
    0 ≤ four_fingers_confidence (Option.some hd) ∧
    four_fingers_confidence (Option.some hd) ≤ 1 := by
  unfold four_fingers_confidence
  dsimp only
  refine ite_bounds _ ?_ (by norm_num)
  exact min_one_bounds (by
    repeat
      first
        | apply ite_nonneg
        | apply add_nonneg
        | norm_num)

/-- C9: for every one of the ten templates and every hand skeleton, an
unmet base gate yields confidence exactly 0 (no bonuses are applied), and
the confidence always lies in [0, 1] (bonuses are clamped by the final
min with 1).  For open_palm the base gate of the code is "at least 4 of
the 5 extension tests" (all 5 gives base 0.50, exactly 4 gives 0.30). -/
theorem template_gate_and_bounds (hd : HandData) :
    ((¬ open_palm_gate hd → open_palm_confidence (Option.some hd) = 0) ∧
      0 ≤ open_palm_confidence (Option.some hd) ∧
      open_palm_confidence (Option.some hd) ≤ 1) ∧
    ((¬ peace_sign_gate hd → peace_sign_confidence (Option.some hd) = 0) ∧
      0 ≤ peace_sign_confidence (Option.some hd) ∧
      peace_sign_confidence (Option.some hd) ≤ 1) ∧
    ((¬ thumbs_up_gate hd → thumbs_up_confidence (Option.some hd) = 0) ∧
      0 ≤ thumbs_up_confidence (Option.some hd) ∧
      thumbs_up_confidence (Option.some hd) ≤ 1) ∧
    ((¬ thumbs_down_gate hd → thumbs_down_confidence (Option.some hd) = 0) ∧
      0 ≤ thumbs_down_confidence (Option.some hd) ∧
      thumbs_down_confidence (Option.some hd) ≤ 1) ∧
    ((¬ pointing_gate hd → pointing_confidence (Option.some hd) = 0) ∧
      0 ≤ pointing_confidence (Option.some hd) ∧
      pointing_confidence (Option.some hd) ≤ 1) ∧
    ((¬ ok_sign_gate hd → ok_sign_confidence (Option.some hd) = 0) ∧
      0 ≤ ok_sign_confidence (Option.some hd) ∧
      ok_sign_confidence (Option.some hd) ≤ 1) ∧
    ((¬ rock_sign_gate hd → rock_sign_confidence (Option.some hd) = 0) ∧
      0 ≤ rock_sign_confidence (Option.some hd) ∧
      rock_sign_confidence (Option.some hd) ≤ 1) ∧
    ((¬ shaka_gate hd → shaka_confidence (Option.some hd) = 0) ∧
      0 ≤ shaka_confidence (Option.some hd) ∧
      shaka_confidence (Option.some hd) ≤ 1) ∧
    ((¬ three_fingers_gate hd → three_fingers_confidence (Option.some hd) = 0) ∧
      0 ≤ three_fingers_confidence (Option.some hd) ∧
      three_fingers_confidence (Option.some hd) ≤ 1) ∧
    ((¬ four_fingers_gate hd → four_fingers_confidence (Option.some hd) = 0) ∧
      0 ≤ four_fingers_confidence (Option.some hd) ∧
      four_fingers_confidence (Option.some hd) ≤ 1) :=
  ⟨⟨open_palm_zero hd, (open_palm_bounds hd).1, (open_palm_bounds hd).2⟩,
   ⟨peace_zero hd, (peace_bounds hd).1, (peace_bounds hd).2⟩,
   ⟨thumbs_up_zero hd, (thumbs_up_bounds hd).1, (thumbs_up_bounds hd).2⟩,
   ⟨thumbs_down_zero hd, (thumbs_down_bounds hd).1, (thumbs_down_bounds hd).2⟩,
   ⟨pointing_zero hd, (pointing_bounds hd).1, (pointing_bounds hd).2⟩,
   ⟨ok_sign_zero hd, (ok_sign_bounds hd).1, (ok_sign_bounds hd).2⟩,
   ⟨rock_sign_zero hd, (rock_sign_bounds hd).1, (rock_sign_bounds hd).2⟩,
   ⟨shaka_zero hd, (shaka_bounds hd).1, (shaka_bounds hd).2⟩,
   ⟨three_fingers_zero hd, (three_fingers_bounds hd).1, (three_fingers_bounds hd).2⟩,
   ⟨four_fingers_zero hd, (four_fingers_bounds hd).1, (four_fingers_bounds hd).2⟩⟩

set_option maxHeartbeats 2000000 in
/-- Witness for C9: on the degenerate zero skeleton every base gate fails,
so by the gate clauses every one of the ten confidences is exactly 0. -/
theorem template_gate_and_bounds_witness :
    open_palm_confidence (Option.some zeroHand) = 0 ∧
    peace_sign_confidence (Option.some zeroHand) = 0 ∧
    thumbs_up_confidence (Option.some zeroHand) = 0 ∧
    thumbs_down_confidence (Option.some zeroHand) = 0 ∧
    pointing_confidence (Option.some zeroHand) = 0 ∧
    ok_sign_confidence (Option.some zeroHand) = 0 ∧
    rock_sign_confidence (Option.some zeroHand) = 0 ∧
    shaka_confidence (Option.some zeroHand) = 0 ∧
    three_fingers_confidence (Option.some zeroHand) = 0 ∧
    four_fingers_confidence (Option.some zeroHand) = 0 := by
  have h := template_gate_and_bounds zeroHand
  refine ⟨h.1.1 ?_, h.2.1.1 ?_, h.2.2.1.1 ?_, h.2.2.2.1.1 ?_, h.2.2.2.2.1.1 ?_,
    h.2.2.2.2.2.1.1 ?_, h.2.2.2.2.2.2.1.1 ?_, h.2.2.2.2.2.2.2.1.1 ?_,
    h.2.2.2.2.2.2.2.2.1.1 ?_, h.2.2.2.2.2.2.2.2.2.1 ?_⟩ <;>
    norm_num [open_palm_gate, peace_sign_gate, thumbs_up_gate, thumbs_down_gate,
      pointing_gate, ok_sign_gate, rock_sign_gate, shaka_gate, three_fingers_gate,
      four_fingers_gate, is_finger_extended, is_thumb_extended_up,
      is_thumb_extended_down, okTipDistance, zeroHand]

end

end IronCoder
